import Mathlib

/-!
Verification of the MediScan multi-agent clinic pipeline.

Shallow embedding of the repository's Python sources:
* `src/agents/voice_intake_agent.py`, `symptom_reasoning_agent.py`,
  `document_processor_agent.py`, `triage_coordinator_agent.py`,
  `care_plan_agent.py` — data classes and the pure triage logic;
* `src/orchestrator/agent_coordinator.py` — the pipeline orchestrator,
  case registry, progress reporting and the summary exporter.

External services (speech-to-text, Vision, Gemini) are modelled as
oracle parameters; everything the repository computes itself is
translated directly.
-/

namespace MediScan

/-- Contiguous-substring search on character lists. -/
def listIsInfixOf (kw : List Char) : List Char → Bool
  | [] => kw.isEmpty
  | b :: rest => kw.isPrefixOf (b :: rest) || listIsInfixOf kw rest

/-- Python substring test `kw in s` (`str.__contains__`). -/
def pyIn (kw s : String) : Bool := listIsInfixOf kw.data s.data

/-- Python `str.lower()`. -/
def pyLower (s : String) : String := ⟨s.data.map Char.toLower⟩

/-! ## Data model: agent result types (from the five agent modules) -/

/-- `VoiceIntakeResult` dataclass (voice_intake_agent.py). -/
structure VoiceIntakeResult where
  transcript : String
  confidence : Rat
  urgency_level : String
  urgency_score : Rat
  speaker_emotions : List (String × Rat)
  duration_seconds : Rat
deriving Repr, DecidableEq

/-- `SymptomSeverity` enum (symptom_reasoning_agent.py). -/
inductive SymptomSeverity where
  | MILD
  | MODERATE
  | SEVERE
  | CRITICAL
deriving Repr, DecidableEq

/-- The `.value` string of a `SymptomSeverity` enum member. -/
def SymptomSeverity.value : SymptomSeverity → String
  | .MILD => "mild"
  | .MODERATE => "moderate"
  | .SEVERE => "severe"
  | .CRITICAL => "critical"

/-- `ExtractedSymptom` dataclass (symptom_reasoning_agent.py). -/
structure ExtractedSymptom where
  name : String
  severity : SymptomSeverity
  duration : String
  location : Option String
  characteristics : List String
  triggers : List String
  relievers : List String
deriving Repr, DecidableEq

/-- `SymptomAnalysisResult` dataclass (symptom_reasoning_agent.py). -/
structure SymptomAnalysisResult where
  symptoms : List ExtractedSymptom
  medical_history : List String
  current_medications : List String
  allergies : List String
  clarifying_questions : List String
  missing_critical_info : List String
  confidence_score : Rat
deriving Repr, DecidableEq

/-- `InsuranceInfo` dataclass (document_processor_agent.py). -/
structure InsuranceInfo where
  provider : String
  member_id : String
  group_number : Option String
  plan_type : String
  coverage_status : String
deriving Repr, DecidableEq

/-- `MedicalRecordInfo` dataclass (document_processor_agent.py). -/
structure MedicalRecordInfo where
  patient_name : String
  date_of_birth : Option String
  medical_conditions : List String
  medications : List String
  allergies : List String
  last_visit_date : Option String
  provider_name : Option String
deriving Repr, DecidableEq

/-- `PrescriptionInfo` dataclass (document_processor_agent.py). -/
structure PrescriptionInfo where
  medication_name : String
  dosage : String
  frequency : String
  prescriber : String
  date_prescribed : Option String
deriving Repr, DecidableEq

/-- `DocumentProcessingResult` dataclass (document_processor_agent.py). -/
structure DocumentProcessingResult where
  document_type : String
  insurance_info : Option InsuranceInfo
  medical_record : Option MedicalRecordInfo
  prescription : Option PrescriptionInfo
  extracted_text : String
  confidence_score : Rat
  validation_warnings : List String
deriving Repr, DecidableEq

/-! ## Triage coordinator (src/agents/triage_coordinator_agent.py) -/

/-- `UrgencyLevel` enum. -/
inductive UrgencyLevel where
  | IMMEDIATE
  | URGENT
  | SEMI_URGENT
  | NON_URGENT
deriving Repr, DecidableEq

/-- The `.value` string of an `UrgencyLevel` enum member. -/
def UrgencyLevel.value : UrgencyLevel → String
  | .IMMEDIATE => "immediate"
  | .URGENT => "urgent"
  | .SEMI_URGENT => "semi_urgent"
  | .NON_URGENT => "non_urgent"

/-- `DispositionType` enum. -/
inductive DispositionType where
  | EMERGENCY_DEPARTMENT
  | URGENT_CARE
  | PRIMARY_CARE_SAME_DAY
  | PRIMARY_CARE_ROUTINE
  | TELEHEALTH
  | SELF_CARE
deriving Repr, DecidableEq

/-- The `.value` string of a `DispositionType` enum member. -/
def DispositionType.value : DispositionType → String
  | .EMERGENCY_DEPARTMENT => "emergency_department"
  | .URGENT_CARE => "urgent_care"
  | .PRIMARY_CARE_SAME_DAY => "primary_care_same_day"
  | .PRIMARY_CARE_ROUTINE => "primary_care_routine"
  | .TELEHEALTH => "telehealth"
  | .SELF_CARE => "self_care"

/-- `RedFlag` dataclass. -/
structure RedFlag where
  symptom : String
  reasoning : String
  severity : String
deriving Repr, DecidableEq

/-- `ClinicalContradiction` dataclass. -/
structure ClinicalContradiction where
  finding : String
  conflict : String
  recommendation : String
deriving Repr, DecidableEq

/-- `TriageDecision` dataclass. -/
structure TriageDecision where
  urgency_level : UrgencyLevel
  urgency_confidence : Rat
  disposition : DispositionType
  red_flags : List RedFlag
  contradictions : List ClinicalContradiction
  clinical_reasoning : String
  recommended_tests : List String
  specialist_referral : Option String
  estimated_wait_time : String
deriving Repr, DecidableEq

/-- One entry of the `symptom_analysis["symptoms"]` list handed to the
triage agent by `_run_triage_coordination` (agent_coordinator.py lines
240-249): name, severity `.value` string, duration, location,
characteristics. -/
structure SymptomDict where
  name : String
  severity : String
  duration : String
  location : Option String
  characteristics : List String
deriving Repr, DecidableEq

/-- The `symptom_analysis` dict consumed by `make_triage_decision`.
A missing key behaves like the `.get(key, [])` default, so the empty
dict `{}` is the record with all lists empty. -/
structure SymptomAnalysisDict where
  symptoms : List SymptomDict := []
  medical_history : List String := []
  current_medications : List String := []
  allergies : List String := []
deriving Repr, DecidableEq

/-- The `voice_analysis` dict consumed by `make_triage_decision`; the
empty dict `{}` has all fields `none` (so `.get("urgency_level", "low")`
falls back to the default). -/
structure VoiceAnalysisDict where
  urgency_level : Option String := none
  emotions : List (String × Rat) := []
  duration : Option Rat := none
deriving Repr, DecidableEq

/-- The `document_data["insurance_info"]` sub-dict built by
`_run_triage_coordination` (provider, member_id, plan_type). -/
structure InsuranceDict where
  provider : String
  member_id : String
  plan_type : String
deriving Repr, DecidableEq

/-- The `document_data["medical_record"]` sub-dict built by
`_run_triage_coordination`. -/
structure MedicalRecordDict where
  patient_name : String
  medical_conditions : List String
  medications : List String
  allergies : List String
deriving Repr, DecidableEq

/-- The `document_data` dict consumed by `make_triage_decision`; keys
absent from the dict are `none`. -/
structure DocumentDataDict where
  insurance_info : Option InsuranceDict := none
  medical_record : Option MedicalRecordDict := none
deriving Repr, DecidableEq

/-- The parsed Gemini analysis returned by `_perform_clinical_reasoning`
(an external reasoning call; modelled as an oracle value).  Each field is
optional, matching `triage_analysis.get(key, default)` look-ups. -/
structure TriageAnalysisDict where
  urgency_assessment : Option String := none
  confidence : Option Rat := none
  reasoning : Option String := none
deriving Repr, DecidableEq

/-- The `RedFlag` appended for chest pain with risk factors. -/
def chest_pain_flag : RedFlag :=
  ⟨"Chest Pain with Risk Factors",
   "Chest pain in patient with cardiac risk factors requires immediate cardiac workup",
   "critical"⟩

/-- The `RedFlag` appended for a severe headache. -/
def severe_headache_flag : RedFlag :=
  ⟨"Severe Headache",
   "Sudden severe headache raises concern for SAH, meningitis, or other neurological emergency",
   "critical"⟩

/-- The `RedFlag` appended for respiratory distress. -/
def respiratory_distress_flag : RedFlag :=
  ⟨"Respiratory Distress",
   "Severe respiratory distress requires immediate evaluation and oxygen support",
   "critical"⟩

/-- The `RedFlag` appended for severe abdominal pain (severity "high"). -/
def severe_abdominal_pain_flag : RedFlag :=
  ⟨"Severe Abdominal Pain",
   "Severe abdominal pain may indicate surgical emergency (appendicitis, perforation, etc.)",
   "high"⟩

/-- The red flags contributed by one symptom in the loop body of
`_identify_red_flags` (triage_coordinator_agent.py lines 201-242): the
four independent checks append in this order. -/
def symptom_red_flags (medical_history : List String) (symptom : SymptomDict) :
    List RedFlag :=
  let symptom_name := pyLower symptom.name
  (if ["chest pain", "chest pressure"].any (fun kw => pyIn kw symptom_name) then
    let has_risk_factors := ["hypertension", "diabetes", "heart", "cardiac"].any
      (fun risk => pyIn risk (pyLower (String.intercalate " " medical_history)))
    if has_risk_factors || (symptom.severity == "severe" || symptom.severity == "critical")
    then [chest_pain_flag] else []
  else []) ++
  (if ["worst headache", "severe headache", "thunderclap"].any
      (fun kw => pyIn kw symptom_name)
   then [severe_headache_flag] else []) ++
  (if ["shortness of breath", "difficulty breathing", "can\x27t breathe"].any
      (fun kw => pyIn kw symptom_name)
   then (if symptom.severity == "severe" || symptom.severity == "critical"
         then [respiratory_distress_flag] else [])
   else []) ++
  (if pyIn "abdominal pain" symptom_name
   then (if symptom.severity == "severe" then [severe_abdominal_pain_flag] else [])
   else [])

/-- `_identify_red_flags`: scan every symptom against the red-flag
rules, accumulating flags in symptom order. -/
def identify_red_flags (symptom_analysis : SymptomAnalysisDict) : List RedFlag :=
  (symptom_analysis.symptoms.map
    (symptom_red_flags symptom_analysis.medical_history)).flatten

/-- `_check_contradictions` (triage_coordinator_agent.py lines 246-290).
Python iterates over `set(...)`s whose order is unspecified; the model
fixes first-occurrence order via `List.dedup`, which only affects the
order/multiplicity of the contradiction list, inspected by no claim. -/
def check_contradictions (symptom_analysis : SymptomAnalysisDict)
    (document_data : DocumentDataDict) : List ClinicalContradiction :=
  let stated_allergies := (symptom_analysis.allergies.map pyLower).dedup
  let stated_medications := (symptom_analysis.current_medications.map pyLower).dedup
  let contradictions :=
    if stated_allergies.contains "penicillin" then
      stated_medications.filterMap (fun med =>
        if ["amoxicillin", "ampicillin", "penicillin"].any (fun dm => pyIn dm med) then
          some ⟨"Penicillin allergy documented",
                "Patient currently taking " ++ med ++ " (penicillin-based)",
                "STOP medication immediately, consult physician"⟩
        else none)
    else []
  match document_data.medical_record with
  | none => contradictions
  | some record =>
    let record_conditions := (record.medical_conditions.map pyLower).dedup
    let stated_conditions := (symptom_analysis.medical_history.map pyLower).dedup
    let missing_conditions := record_conditions.filter
      (fun c => !stated_conditions.contains c)
    if !missing_conditions.isEmpty && missing_conditions.contains "asthma" then
      contradictions ++
        [⟨"Asthma documented in medical record",
          "Patient did not mention asthma history",
          "Clarify asthma history, consider pulmonary involvement"⟩]
    else contradictions

/-- The `urgency_map` dict of `_calculate_urgency`. -/
def urgency_map : String → Option UrgencyLevel
  | "immediate" => some .IMMEDIATE
  | "urgent" => some .URGENT
  | "semi_urgent" => some .SEMI_URGENT
  | "non_urgent" => some .NON_URGENT
  | _ => none

/-- `_calculate_urgency` (triage_coordinator_agent.py lines 362-396):
red flags short-circuit the Gemini assessment; otherwise the Gemini
assessment is mapped to an `UrgencyLevel` (defaulting to URGENT). -/
def calculate_urgency (triage_analysis : TriageAnalysisDict)
    (red_flags : List RedFlag) (voice_analysis : VoiceAnalysisDict) :
    UrgencyLevel × Rat :=
  if !red_flags.isEmpty then
    if red_flags.any (fun rf => rf.severity == "critical") then
      (.IMMEDIATE, 19/20)
    else
      (.URGENT, 9/10)
  else
    let assessment := triage_analysis.urgency_assessment.getD "semi_urgent"
    let confidence := triage_analysis.confidence.getD (3/4)
    let voice_urgency := voice_analysis.urgency_level.getD "low"
    let confidence :=
      if voice_urgency == "high" && assessment != "immediate" then
        confidence * (9/10)
      else confidence
    ((urgency_map assessment).getD .URGENT, confidence)

/-- `_determine_disposition` (triage_coordinator_agent.py lines 398-408);
the `symptom_analysis` parameter is accepted but unused, as in the
source. -/
def determine_disposition (urgency : UrgencyLevel)
    (symptom_analysis : SymptomAnalysisDict) : DispositionType :=
  match urgency with
  | .IMMEDIATE => .EMERGENCY_DEPARTMENT
  | .URGENT => .URGENT_CARE
  | .SEMI_URGENT => .PRIMARY_CARE_SAME_DAY
  | .NON_URGENT => .PRIMARY_CARE_ROUTINE

/-- `_recommend_tests`. -/
def recommend_tests (symptom_analysis : SymptomAnalysisDict) : List String :=
  let symptoms := symptom_analysis.symptoms.map (fun s => pyLower s.name)
  let tests : List String := []
  let tests := if symptoms.any (fun s => pyIn "chest pain" s) then
    tests ++ ["ECG", "Troponin", "Chest X-ray"] else tests
  let tests := if symptoms.any (fun s => pyIn "abdominal pain" s) then
    tests ++ ["CBC", "CMP", "Lipase", "Urinalysis"] else tests
  let tests := if symptoms.any (fun s => pyIn "headache" s) then
    tests ++ ["CT Head non-contrast", "CBC"] else tests
  let tests := if symptoms.any (fun s => pyIn "shortness of breath" s || pyIn "cough" s) then
    tests ++ ["Chest X-ray", "Pulse oximetry", "ABG if severe"] else tests
  tests

/-- `_suggest_specialist`. -/
def suggest_specialist (symptom_analysis : SymptomAnalysisDict) : Option String :=
  let symptoms := symptom_analysis.symptoms.map (fun s => pyLower s.name)
  if symptoms.any (fun s => pyIn "chest pain" s) then some "Cardiology"
  else if symptoms.any (fun s => pyIn "abdominal pain" s) then
    some "Gastroenterology or General Surgery"
  else if symptoms.any (fun s => pyIn "headache" s) then some "Neurology"
  else none

/-- `_estimate_wait_time` (the `"Unknown"` default of the dict lookup is
unreachable because every enum member is a key). -/
def estimate_wait_time : UrgencyLevel → String
  | .IMMEDIATE => "0 minutes - immediate attention"
  | .URGENT => "15-30 minutes"
  | .SEMI_URGENT => "1-2 hours"
  | .NON_URGENT => "2-4 hours"

/-- `make_triage_decision` (triage_coordinator_agent.py lines 104-161).
The Gemini step `_perform_clinical_reasoning` is an external call; its
parsed output is the `triage_analysis` oracle parameter. -/
def make_triage_decision (triage_analysis : TriageAnalysisDict)
    (voice_analysis : VoiceAnalysisDict)
    (symptom_analysis : SymptomAnalysisDict)
    (document_data : DocumentDataDict) : TriageDecision :=
  let red_flags := identify_red_flags symptom_analysis
  let contradictions := check_contradictions symptom_analysis document_data
  let uc := calculate_urgency triage_analysis red_flags voice_analysis
  let urgency_level := uc.1
  let confidence := uc.2
  let disposition := determine_disposition urgency_level symptom_analysis
  let tests := recommend_tests symptom_analysis
  let specialist := suggest_specialist symptom_analysis
  let wait_time := estimate_wait_time urgency_level
  { urgency_level := urgency_level
    urgency_confidence := confidence
    disposition := disposition
    red_flags := red_flags
    contradictions := contradictions
    clinical_reasoning := triage_analysis.reasoning.getD ""
    recommended_tests := tests
    specialist_referral := specialist
    estimated_wait_time := wait_time }

/-! ## Care plan agent types (src/agents/care_plan_agent.py) -/

/-- `DoctorSummary` dataclass (only fields, the generation itself is an
external Gemini call). -/
structure DoctorSummary where
  patient_demographics : String
  chief_complaint : String
  history_of_present_illness : String
  past_medical_history : List String
  medications : List String
  allergies : List String
  physical_exam_notes : String
  triage_assessment : String
  red_flags : List String
  differential_diagnosis : List String
  recommended_workup : List String
  disposition_plan : String
deriving Repr, DecidableEq

/-- `PatientInstructions` dataclass. -/
structure PatientInstructions where
  welcome_message : String
  what_to_expect : List String
  estimated_wait_time : String
  preparation_steps : List String
  warning_signs : List String
  follow_up_instructions : String
  language : String
deriving Repr, DecidableEq

/-- `SystemActions` dataclass; the `Dict`-typed members are opaque to
every claim, modelled as strings. -/
structure SystemActions where
  appointments_to_schedule : List String
  alerts_to_send : List String
  tests_to_order : List String
  referrals_to_create : List String
  notifications : List String
deriving Repr, DecidableEq

/-- `CarePlan` dataclass. -/
structure CarePlan where
  doctor_summary : DoctorSummary
  patient_instructions : PatientInstructions
  system_actions : SystemActions
  generated_at : Nat
deriving Repr, DecidableEq

/-! ## Orchestrator data model (src/orchestrator/agent_coordinator.py) -/

/-- `PatientCase` dataclass: the case record mutated in place by the
run.  `created_at` is an opaque timestamp. -/
structure PatientCase where
  case_id : String
  audio_file_path : Option String
  document_image_paths : List String
  created_at : Nat
  voice_result : Option VoiceIntakeResult := none
  symptom_result : Option SymptomAnalysisResult := none
  document_results : Option (List DocumentProcessingResult) := none
  triage_decision : Option TriageDecision := none
  care_plan : Option CarePlan := none
  current_stage : String := "initialized"
  progress_percentage : Nat := 0
  errors : List String := []
deriving Repr, DecidableEq

/-- The `urgency_context` dict handed to the symptom agent:
either `{}` (no audio path) or the 3-field dict built from the voice
result (process_patient lines 116-120). -/
inductive UrgencyContext where
  | empty
  | ofVoice (urgency_level : String) (emotions : List (String × Rat))
      (duration : Rat)
deriving Repr, DecidableEq

/-- The `patient_data` dict built by `_run_care_plan_generation`
(lines 289-303): per-symptom name/severity-value/duration triples plus
history, medications, allergies; `{}` when the symptom slot is unset. -/
structure CarePlanPatientData where
  symptoms : List (String × String × String) := []
  medical_history : List String := []
  medications : List String := []
  allergies : List String := []
deriving Repr, DecidableEq

/-- The `triage_data` dict built by `_run_care_plan_generation`
(lines 305-321); `{}` when the triage slot is unset. -/
structure CarePlanTriageData where
  urgency_level : Option String := none
  disposition : Option String := none
  red_flags : List (String × String) := []
  recommended_tests : List String := []
  specialist_referral : Option (Option String) := none
  estimated_wait_time : Option String := none
  clinical_reasoning : Option String := none
deriving Repr, DecidableEq

/-- The `all_agent_data` dict built by `_run_care_plan_generation`
(lines 323-328): a compact voice digest with `"unknown"` / `{}`
defaults. -/
structure CarePlanVoiceDigest where
  urgency_level : String
  emotions : List (String × Rat)
deriving Repr, DecidableEq

/-- Input bundle of the care-plan stage. -/
structure CarePlanInput where
  patient_data : CarePlanPatientData
  triage_data : CarePlanTriageData
  all_agent_data : CarePlanVoiceDigest
deriving Repr, DecidableEq

/-- The five stage implementations consumed by the orchestrator.  Each
is a boundary operation that may hard-fault (`Except.error`), matching
§4.1's stage contract; the orchestrator never looks inside them. -/
structure Agents where
  voice : String → Except String VoiceIntakeResult
  symptom : String → UrgencyContext → Except String SymptomAnalysisResult
  document : String → Except String DocumentProcessingResult
  triage : VoiceAnalysisDict → SymptomAnalysisDict → DocumentDataDict →
    Except String TriageDecision
  carePlan : CarePlanInput → Except String CarePlan

/-! ## Adapters between stage boundaries -/

/-- The `voice_analysis` dict built by `_run_triage_coordination`
(lines 229-235): `{}` when the voice slot is unset. -/
def buildVoiceAnalysis : Option VoiceIntakeResult → VoiceAnalysisDict
  | none => {}
  | some v =>
    { urgency_level := some v.urgency_level
      emotions := v.speaker_emotions
      duration := some v.duration_seconds }

/-- The `symptom_analysis` dict built by `_run_triage_coordination`
(lines 237-253): `{}` when the symptom slot is unset. -/
def buildSymptomAnalysis : Option SymptomAnalysisResult → SymptomAnalysisDict
  | none => {}
  | some sr =>
    { symptoms := sr.symptoms.map (fun s =>
        { name := s.name
          severity := s.severity.value
          duration := s.duration
          location := s.location
          characteristics := s.characteristics })
      medical_history := sr.medical_history
      current_medications := sr.current_medications
      allergies := sr.allergies }

/-- The body of the `document_data` loop of `_run_triage_coordination`
(lines 257-270): each document in turn overwrites the
`insurance_info` / `medical_record` keys it yields. -/
def mergeDocStep (dd : DocumentDataDict) (doc : DocumentProcessingResult) :
    DocumentDataDict :=
  let dd := match doc.insurance_info with
    | some ins =>
      { dd with insurance_info := some ⟨ins.provider, ins.member_id, ins.plan_type⟩ }
    | none => dd
  match doc.medical_record with
  | some mr =>
    { dd with medical_record := some ⟨mr.patient_name, mr.medical_conditions, mr.medications, mr.allergies⟩ }
  | none => dd

/-- The `document_data` dict built by `_run_triage_coordination`
(lines 255-270): `{}` when the document slot is unset (Python also
skips the loop when the list is empty, which yields the same `{}`). -/
def buildDocumentData : Option (List DocumentProcessingResult) → DocumentDataDict
  | none => {}
  | some docs => docs.foldl mergeDocStep {}

/-- The input bundle built by `_run_care_plan_generation`
(lines 284-328). -/
def buildCarePlanInput (c : PatientCase) : CarePlanInput :=
  { patient_data :=
      match c.symptom_result with
      | none => {}
      | some sr =>
        { symptoms := sr.symptoms.map (fun s =>
            (s.name, s.severity.value, s.duration))
          medical_history := sr.medical_history
          medications := sr.current_medications
          allergies := sr.allergies }
    triage_data :=
      match c.triage_decision with
      | none => {}
      | some td =>
        { urgency_level := some td.urgency_level.value
          disposition := some td.disposition.value
          red_flags := td.red_flags.map (fun rf => (rf.symptom, rf.reasoning))
          recommended_tests := td.recommended_tests
          specialist_referral := some td.specialist_referral
          estimated_wait_time := some td.estimated_wait_time
          clinical_reasoning := some td.clinical_reasoning }
    all_agent_data :=
      { urgency_level :=
          match c.voice_result with
          | some v => v.urgency_level
          | none => "unknown"
        emotions :=
          match c.voice_result with
          | some v => v.speaker_emotions
          | none => [] } }

/-! ## Document fan-out (`_run_document_processing`, lines 201-222)

`asyncio.gather` launches one task per document, waits for all of
them, raises if any task raised, and otherwise returns the results in
task-submission order (not completion order). -/

/-- Semantics of the fan-out as observed by the orchestrator: every
invocation runs; any hard fault fails the whole batch; on success the
results are in input order. -/
def run_document_processing (f : String → Except String DocumentProcessingResult) :
    List String → Except String (List DocumentProcessingResult)
  | [] => .ok []
  | d :: rest =>
    match f d, run_document_processing f rest with
    | .error e, _ => .error e
    | .ok _, .error e => .error e
    | .ok r, .ok rs => .ok (r :: rs)

/-- A completion schedule: the per-document tasks finish in the order
given by `sched` (a permutation of the task indices); each completed
task reports its submission index with its outcome. -/
def runDocSchedule (f : String → Except String DocumentProcessingResult)
    (docs : List String) (sched : List Nat) :
    List (Nat × Except String DocumentProcessingResult) :=
  sched.filterMap (fun i => (docs[i]?).map (fun d => (i, f d)))

/-- Reassembly step of `asyncio.gather`: pick, for submission indices
`start, start+1, …, start+n-1`, the completed outcome with that index. -/
def assembleAux (completed : List (Nat × Except String DocumentProcessingResult)) :
    Nat → Nat → Option (List (Except String DocumentProcessingResult))
  | _, 0 => some []
  | start, n + 1 =>
    match completed.find? (fun p => p.1 == start) with
    | none => none
    | some p => (assembleAux completed (start + 1) n).map (fun rest => p.2 :: rest)

/-- `asyncio.gather`'s result list: outcomes of the `k` tasks in
submission order, regardless of the completion order recorded in
`completed`. -/
def assembleInOrder (k : Nat)
    (completed : List (Nat × Except String DocumentProcessingResult)) :
    Option (List (Except String DocumentProcessingResult)) :=
  assembleAux completed 0 k

/-! ## The pipeline run (`process_patient`, lines 74-165) -/

/-- Mutable run context: the case record under mutation, the
notifications delivered to the progress callback so far
(case id, stage, percentage), and the trace of case-record values
after each mutation step. -/
structure RunState where
  patientCase : PatientCase
  notifications : List (String × String × Nat)
  trace : List PatientCase
deriving Repr, DecidableEq

/-- `_update_progress` (lines 342-354): set the stage and percentage on
the record and invoke the callback. -/
def update_progress (st : RunState) (stage : String) (percentage : Nat) :
    RunState :=
  let c := { st.patientCase with
              current_stage := stage, progress_percentage := percentage }
  { patientCase := c
    notifications := st.notifications ++ [(c.case_id, stage, percentage)]
    trace := st.trace ++ [c] }

/-- One field assignment on the case record. -/
def setCase (st : RunState) (c : PatientCase) : RunState :=
  { st with patientCase := c, trace := st.trace ++ [c] }

/-- The `except` handler (lines 160-163): append one error entry, set
the stage to `"failed"` (two successive mutations), re-raise. -/
def failRun (st : RunState) (msg : String) : RunState :=
  let c1 := { st.patientCase with
               errors := st.patientCase.errors ++ ["Processing error: " ++ msg] }
  let c2 := { c1 with current_stage := "failed" }
  { patientCase := c2
    notifications := st.notifications
    trace := st.trace ++ [c1, c2] }

/-- A stage of the run: transforms the run state and either continues
(`none`) or aborts with the raised fault (`some msg`). -/
def StageM : Type := RunState → RunState × Option String

/-- Sequencing inside the `try` block: a raised fault skips the rest. -/
def seqStage (f g : StageM) : StageM := fun st =>
  match f st with
  | (st', none) => g st'
  | (st', some e) => (st', some e)

/-- Stage 1 (lines 106-110): voice intake, run only when an audio file
was supplied. -/
def voiceStage (ag : Agents) (audio_file : Option String) : StageM := fun st =>
  match audio_file with
  | none => (st, none)
  | some af =>
    let st := update_progress st "voice_intake" 0
    match ag.voice af with
    | .error e => (st, some e)
    | .ok vr =>
      let st := setCase st { st.patientCase with voice_result := some vr }
      (update_progress st "voice_intake" 20, none)

/-- Stage 2 (lines 112-132): symptom reasoning, with the urgency
context adapted from the voice result, or the placeholder transcript
`"Sample patient transcript"` with empty context when no voice result
exists. -/
def symptomStage (ag : Agents) : StageM := fun st =>
  let st := update_progress st "symptom_reasoning" 20
  let call :=
    match st.patientCase.voice_result with
    | some vr =>
      ag.symptom vr.transcript
        (.ofVoice vr.urgency_level vr.speaker_emotions vr.duration_seconds)
    | none => ag.symptom "Sample patient transcript" .empty
  match call with
  | .error e => (st, some e)
  | .ok sr =>
    let st := setCase st { st.patientCase with symptom_result := some sr }
    (update_progress st "symptom_reasoning" 40, none)

/-- Outcome of the document stage's body (lines 137-140): the fan-out
when references exist, an empty list otherwise. -/
def documentStageResult (ag : Agents) (document_images : List String) :
    Except String (List DocumentProcessingResult) :=
  if document_images.isEmpty then .ok []
  else run_document_processing ag.document document_images

/-- Stage 3 (lines 134-142): document fan-out, or an empty result list
when no document references were given. -/
def documentStage (ag : Agents) (document_images : List String) : StageM :=
  fun st =>
  let st := update_progress st "document_processing" 40
  match documentStageResult ag document_images with
  | .error e => (st, some e)
  | .ok rs =>
    let st := setCase st { st.patientCase with document_results := some rs }
    (update_progress st "document_processing" 60, none)

/-- Stage 4 (lines 144-149 with `_run_triage_coordination`): adapt the
accumulated slots and invoke the triage agent. -/
def triageStage (ag : Agents) : StageM := fun st =>
  let st := update_progress st "triage_coordination" 60
  match ag.triage (buildVoiceAnalysis st.patientCase.voice_result)
      (buildSymptomAnalysis st.patientCase.symptom_result)
      (buildDocumentData st.patientCase.document_results) with
  | .error e => (st, some e)
  | .ok td =>
    let st := setCase st { st.patientCase with triage_decision := some td }
    (update_progress st "triage_coordination" 80, none)

/-- Stage 5 (lines 151-156 with `_run_care_plan_generation`). -/
def carePlanStage (ag : Agents) : StageM := fun st =>
  let st := update_progress st "care_plan_generation" 80
  match ag.carePlan (buildCarePlanInput st.patientCase) with
  | .error e => (st, some e)
  | .ok cp =>
    let st := setCase st { st.patientCase with care_plan := some cp }
    (update_progress st "care_plan_generation" 100, none)

/-- Everything observable about one `process_patient` call: the
returned value / propagated fault, the final case record (also the
record left in the registry), the callback notifications, and the
record's mutation trace. -/
structure RunResult where
  outcome : Except String PatientCase
  finalCase : PatientCase
  notifications : List (String × String × Nat)
  trace : List PatientCase
deriving Repr

/-- Leave the `try` block: on success set the stage to `"completed"`
and return the case; on a fault run the handler and re-raise. -/
def finishRun (st : RunState) : Option String → RunResult
  | some e =>
    let st' := failRun st e
    { outcome := .error e
      finalCase := st'.patientCase
      notifications := st'.notifications
      trace := st'.trace }
  | none =>
    let c := { st.patientCase with current_stage := "completed" }
    { outcome := .ok c
      finalCase := c
      notifications := st.notifications
      trace := st.trace ++ [c] }

/-- The fresh case record created at lines 95-101 (`document_images or
[]` normalises a missing list to `[]`). -/
def initialCase (case_id : String) (audio_file : Option String)
    (document_images : List String) (now : Nat) : PatientCase :=
  { case_id := case_id
    audio_file_path := audio_file
    document_image_paths := document_images
    created_at := now
    errors := [] }

/-- The run context at pipeline start: fresh record, no notifications,
trace holding the created record. -/
def initState (case_id : String) (audio_file : Option String)
    (document_images : List String) (now : Nat) : RunState :=
  let c0 := initialCase case_id audio_file document_images now
  { patientCase := c0, notifications := [], trace := [c0] }

/-- The five stages of the `try` block in order. -/
def pipelineStages (ag : Agents) (audio_file : Option String)
    (document_images : List String) : StageM :=
  seqStage (voiceStage ag audio_file)
    (seqStage (symptomStage ag)
      (seqStage (documentStage ag document_images)
        (seqStage (triageStage ag) (carePlanStage ag))))

/-- `process_patient` (lines 74-165): create and register the case,
drive the five stages, and apply the failure policy. -/
def process_patient (ag : Agents) (case_id : String)
    (audio_file : Option String) (document_images : List String)
    (now : Nat) : RunResult :=
  let r := pipelineStages ag audio_file document_images
    (initState case_id audio_file document_images now)
  finishRun r.1 r.2

/-! ### Explicit forms of the per-stage state transformations.

`afterVoice st vr` etc. spell out, record by record, what the
corresponding stage does to the run state when its invocation
succeeds; the characterization lemmas below prove them equal to the
stage functions. -/

/-- State after a successful voice-intake stage. -/
def afterVoice (st : RunState) (vr : VoiceIntakeResult) : RunState :=
  let c0 := { st.patientCase with
               current_stage := "voice_intake", progress_percentage := 0 }
  let c1 := { c0 with voice_result := some vr }
  let c2 := { c1 with
               current_stage := "voice_intake", progress_percentage := 20 }
  { patientCase := c2
    notifications := st.notifications ++
      [(st.patientCase.case_id, "voice_intake", 0),
       (st.patientCase.case_id, "voice_intake", 20)]
    trace := st.trace ++ [c0, c1, c2] }

/-- State after a successful symptom-reasoning stage. -/
def afterSymptom (st : RunState) (sr : SymptomAnalysisResult) : RunState :=
  let c0 := { st.patientCase with
               current_stage := "symptom_reasoning", progress_percentage := 20 }
  let c1 := { c0 with symptom_result := some sr }
  let c2 := { c1 with
               current_stage := "symptom_reasoning", progress_percentage := 40 }
  { patientCase := c2
    notifications := st.notifications ++
      [(st.patientCase.case_id, "symptom_reasoning", 20),
       (st.patientCase.case_id, "symptom_reasoning", 40)]
    trace := st.trace ++ [c0, c1, c2] }

/-- State after a successful document-processing stage. -/
def afterDocs (st : RunState) (rs : List DocumentProcessingResult) : RunState :=
  let c0 := { st.patientCase with
               current_stage := "document_processing", progress_percentage := 40 }
  let c1 := { c0 with document_results := some rs }
  let c2 := { c1 with
               current_stage := "document_processing", progress_percentage := 60 }
  { patientCase := c2
    notifications := st.notifications ++
      [(st.patientCase.case_id, "document_processing", 40),
       (st.patientCase.case_id, "document_processing", 60)]
    trace := st.trace ++ [c0, c1, c2] }

/-- State after a successful triage-coordination stage. -/
def afterTriage (st : RunState) (td : TriageDecision) : RunState :=
  let c0 := { st.patientCase with
               current_stage := "triage_coordination", progress_percentage := 60 }
  let c1 := { c0 with triage_decision := some td }
  let c2 := { c1 with
               current_stage := "triage_coordination", progress_percentage := 80 }
  { patientCase := c2
    notifications := st.notifications ++
      [(st.patientCase.case_id, "triage_coordination", 60),
       (st.patientCase.case_id, "triage_coordination", 80)]
    trace := st.trace ++ [c0, c1, c2] }

/-- State after a successful care-plan stage. -/
def afterCare (st : RunState) (cp : CarePlan) : RunState :=
  let c0 := { st.patientCase with
               current_stage := "care_plan_generation", progress_percentage := 80 }
  let c1 := { c0 with care_plan := some cp }
  let c2 := { c1 with
               current_stage := "care_plan_generation", progress_percentage := 100 }
  { patientCase := c2
    notifications := st.notifications ++
      [(st.patientCase.case_id, "care_plan_generation", 80),
       (st.patientCase.case_id, "care_plan_generation", 100)]
    trace := st.trace ++ [c0, c1, c2] }

/-- A stage name that is not a terminal state of the case record. -/
def NonTerminal (s : String) : Prop := s ≠ "failed" ∧ s ≠ "completed"

/-- Run-state invariant inside the `try` block: the record's current
stage, and every record value traced so far, are non-terminal. -/
def StageInv (st : RunState) : Prop :=
  NonTerminal st.patientCase.current_stage ∧
  ∀ c ∈ st.trace, NonTerminal c.current_stage

/-- Run-state invariant of a no-audio run: the voice slot has never
been populated — not in the current record, nor anywhere in the trace —
and no "voice_intake" progress notification has been delivered. -/
def VoiceUnset (st : RunState) : Prop :=
  st.patientCase.voice_result = none ∧
  (∀ c ∈ st.trace, c.voice_result = none) ∧
  ∀ n ∈ st.notifications, n.2.1 ≠ "voice_intake"

/-! ## Case registry, status query, summary export (lines 356-419) -/

/-- The `active_cases` mapping, keyed by case identifier. -/
def Registry : Type := List (String × PatientCase)

/-- `self.active_cases.get(case_id)`. -/
def registryGet (reg : Registry) (case_id : String) : Option PatientCase :=
  (reg.find? (fun p => p.1 == case_id)).map (fun p => p.2)

/-- The status dict returned by `get_case_status`. -/
structure CaseStatus where
  case_id : String
  current_stage : String
  progress_percentage : Nat
  errors : List String
deriving Repr, DecidableEq

/-- `get_case_status` (lines 356-368): `None` for an unknown case. -/
def get_case_status (reg : Registry) (case_id : String) : Option CaseStatus :=
  match registryGet reg case_id with
  | none => none
  | some c =>
    some { case_id := c.case_id
           current_stage := c.current_stage
           progress_percentage := c.progress_percentage
           errors := c.errors }

/-- The `voice_analysis` summary section. -/
structure VoiceSummary where
  transcript : String
  urgency_level : String
  urgency_score : Rat
deriving Repr, DecidableEq

/-- The `symptoms` summary section. -/
structure SymptomsSummary where
  count : Nat
  primary_symptoms : List String
  medical_history : List String
  allergies : List String
deriving Repr, DecidableEq

/-- The `triage_decision` summary section. -/
structure TriageSummary where
  urgency : String
  confidence : Rat
  disposition : String
  red_flags : Nat
  recommended_tests : List String
deriving Repr, DecidableEq

/-- The `care_plan_summary` summary section. -/
structure CarePlanSummary where
  doctor_chief_complaint : String
  patient_wait_time : String
  system_actions : Nat
deriving Repr, DecidableEq

/-- The summary dict built by `export_case_summary`: the four stage
sections are `None` until filled in. -/
structure CaseSummary where
  case_id : String
  timestamp : Nat
  status : String
  voice_analysis : Option VoiceSummary := none
  symptoms : Option SymptomsSummary := none
  triage_decision : Option TriageSummary := none
  care_plan_summary : Option CarePlanSummary := none
deriving Repr, DecidableEq

/-- Return value of `export_case_summary`: either the not-found
sentinel dict `{"error": ...}` or the summary dict. -/
inductive ExportResult where
  | err (msg : String)
  | summary (s : CaseSummary)
deriving Repr, DecidableEq

/-- Headline fields projected from the voice slot (lines 388-393). -/
def voiceSummaryOf (v : VoiceIntakeResult) : VoiceSummary :=
  { transcript := v.transcript
    urgency_level := v.urgency_level
    urgency_score := v.urgency_score }

/-- Headline fields projected from the symptom slot (lines 395-401). -/
def symptomsSummaryOf (sr : SymptomAnalysisResult) : SymptomsSummary :=
  { count := sr.symptoms.length
    primary_symptoms := (sr.symptoms.take 3).map (fun s => s.name)
    medical_history := sr.medical_history
    allergies := sr.allergies }

/-- Headline fields projected from the triage slot (lines 403-410). -/
def triageSummaryOf (td : TriageDecision) : TriageSummary :=
  { urgency := td.urgency_level.value
    confidence := td.urgency_confidence
    disposition := td.disposition.value
    red_flags := td.red_flags.length
    recommended_tests := td.recommended_tests }

/-- Headline fields projected from the care-plan slot (lines 412-417). -/
def carePlanSummaryOf (cp : CarePlan) : CarePlanSummary :=
  { doctor_chief_complaint := cp.doctor_summary.chief_complaint
    patient_wait_time := cp.patient_instructions.estimated_wait_time
    system_actions := cp.system_actions.notifications.length }

/-- The summary projection of one (present) case record: start with all
four sections `None`, then fill each section from its slot when the
slot is set (lines 377-417). -/
def summarize_case (c : PatientCase) : CaseSummary :=
  let summary : CaseSummary :=
    { case_id := c.case_id, timestamp := c.created_at, status := c.current_stage }
  let summary :=
    match c.voice_result with
    | some v => { summary with voice_analysis := some (voiceSummaryOf v) }
    | none => summary
  let summary :=
    match c.symptom_result with
    | some sr => { summary with symptoms := some (symptomsSummaryOf sr) }
    | none => summary
  let summary :=
    match c.triage_decision with
    | some td => { summary with triage_decision := some (triageSummaryOf td) }
    | none => summary
  match c.care_plan with
  | some cp => { summary with care_plan_summary := some (carePlanSummaryOf cp) }
  | none => summary

/-- `export_case_summary` (lines 370-419). -/
def export_case_summary (reg : Registry) (case_id : String) : ExportResult :=
  match registryGet reg case_id with
  | none => .err "Case not found"
  | some c => .summary (summarize_case c)

/-- The `insurance_info` projection used at lines 259-263. -/
def projInsurance (ins : InsuranceInfo) : InsuranceDict :=
  ⟨ins.provider, ins.member_id, ins.plan_type⟩

/-- The `medical_record` projection used at lines 265-270. -/
def projMedicalRecord (mr : MedicalRecordInfo) : MedicalRecordDict :=
  ⟨mr.patient_name, mr.medical_conditions, mr.medications, mr.allergies⟩

/-! ## Concrete sample values (used to evaluate the theorems on closed
inputs) -/

/-- A sample voice-intake result. -/
def demoVoice : VoiceIntakeResult :=
  { transcript := "I have a mild cough"
    confidence := 9/10
    urgency_level := "low"
    urgency_score := 1/10
    speaker_emotions := []
    duration_seconds := 30 }

/-- A sample symptom-analysis result. -/
def demoSymptomResult : SymptomAnalysisResult :=
  { symptoms := [{ name := "cough", severity := .MILD, duration := "2 days",
                   location := none, characteristics := [], triggers := [],
                   relievers := [] }]
    medical_history := []
    current_medications := []
    allergies := []
    clarifying_questions := []
    missing_critical_info := []
    confidence_score := 4/5 }

/-- A sample document-processing result (an insurance card). -/
def demoDocResult : DocumentProcessingResult :=
  { document_type := "insurance_card"
    insurance_info := some { provider := "Blue Cross", member_id := "ABC123",
                             group_number := none, plan_type := "PPO",
                             coverage_status := "active" }
    medical_record := none
    prescription := none
    extracted_text := "insurance member id"
    confidence_score := 9/10
    validation_warnings := [] }

/-- A sample triage decision: the triage agent run on empty inputs. -/
def demoTriageDecision : TriageDecision := make_triage_decision {} {} {} {}

/-- A sample care plan. -/
def demoCarePlan : CarePlan :=
  { doctor_summary := { patient_demographics := "", chief_complaint := "Cough",
                        history_of_present_illness := "",
                        past_medical_history := [], medications := [],
                        allergies := [], physical_exam_notes := "",
                        triage_assessment := "", red_flags := [],
                        differential_diagnosis := [], recommended_workup := [],
                        disposition_plan := "" }
    patient_instructions := { welcome_message := "", what_to_expect := [],
                              estimated_wait_time := "1-2 hours",
                              preparation_steps := [], warning_signs := [],
                              follow_up_instructions := "", language := "en" }
    system_actions := { appointments_to_schedule := [], alerts_to_send := [],
                        tests_to_order := [], referrals_to_create := [],
                        notifications := [] }
    generated_at := 0 }

/-- Stage implementations that all succeed with the sample values. -/
def demoAgents : Agents :=
  { voice := fun _ => .ok demoVoice
    symptom := fun _ _ => .ok demoSymptomResult
    document := fun _ => .ok demoDocResult
    triage := fun _ _ _ => .ok demoTriageDecision
    carePlan := fun _ => .ok demoCarePlan }

/-- Stage implementations where the per-document invocation for the
reference `"B"` hard-faults and every other invocation succeeds. -/
def failDocAgents : Agents :=
  { demoAgents with
    document := fun image_path =>
      if image_path == "B" then .error "Vision API unavailable"
      else .ok demoDocResult }

/-- A symptom analysis containing "Worst headache of my life". -/
def worstHeadacheSymptoms : SymptomAnalysisDict :=
  { symptoms := [{ name := "Worst headache of my life", severity := "severe",
                   duration := "1 hour", location := some "head",
                   characteristics := [] }] }

/-- A symptom analysis containing only severe abdominal pain (whose red
flag is recorded with severity "high", not "critical"). -/
def abdominalPainSymptoms : SymptomAnalysisDict :=
  { symptoms := [{ name := "abdominal pain", severity := "severe",
                   duration := "1 day", location := some "abdomen",
                   characteristics := [] }] }

/-- A Gemini analysis that independently rates the case as non-urgent
with low confidence. -/
def demoTriageAnalysis : TriageAnalysisDict :=
  { urgency_assessment := some "non_urgent"
    confidence := some (1/5)
    reasoning := some "low risk" }

/-! ## Helper lemmas about the triage agent -/

theorem mtd_urgency_eq (ta : TriageAnalysisDict) (va : VoiceAnalysisDict)
    (sa : SymptomAnalysisDict) (dd : DocumentDataDict) :
    (make_triage_decision ta va sa dd).urgency_level =
      (calculate_urgency ta (identify_red_flags sa) va).1 := rfl

theorem mtd_confidence_eq (ta : TriageAnalysisDict) (va : VoiceAnalysisDict)
    (sa : SymptomAnalysisDict) (dd : DocumentDataDict) :
    (make_triage_decision ta va sa dd).urgency_confidence =
      (calculate_urgency ta (identify_red_flags sa) va).2 := rfl

theorem mtd_disposition_eq (ta : TriageAnalysisDict) (va : VoiceAnalysisDict)
    (sa : SymptomAnalysisDict) (dd : DocumentDataDict) :
    (make_triage_decision ta va sa dd).disposition =
      determine_disposition (calculate_urgency ta (identify_red_flags sa) va).1 sa := rfl

theorem calculate_urgency_of_critical (ta : TriageAnalysisDict)
    (rf : List RedFlag) (va : VoiceAnalysisDict)
    (h : rf.any (fun r => r.severity == "critical") = true) :
    calculate_urgency ta rf va = (.IMMEDIATE, 19/20) := by
  have hne : rf.isEmpty = false := by
    cases rf with
    | nil => simp at h
    | cons a l => rfl
  unfold calculate_urgency
  simp [hne, h]

theorem calculate_urgency_of_noncritical (ta : TriageAnalysisDict)
    (rf : List RedFlag) (va : VoiceAnalysisDict) (h0 : rf ≠ [])
    (h : rf.any (fun r => r.severity == "critical") = false) :
    calculate_urgency ta rf va = (.URGENT, 9/10) := by
  have hne : rf.isEmpty = false := by
    cases rf with
    | nil => exact absurd rfl h0
    | cons a l => rfl
  unfold calculate_urgency
  simp [hne, h]

theorem severe_headache_flag_mem (sa : SymptomAnalysisDict) (s : SymptomDict)
    (hs : s ∈ sa.symptoms)
    (hname : pyIn "worst headache" (pyLower s.name) = true) :
    severe_headache_flag ∈ identify_red_flags sa := by
  unfold identify_red_flags
  rw [List.mem_flatten]
  refine ⟨symptom_red_flags sa.medical_history s, List.mem_map_of_mem _ hs, ?_⟩
  unfold symptom_red_flags
  have hany : (["worst headache", "severe headache", "thunderclap"].any
      (fun kw => pyIn kw (pyLower s.name))) = true := by
    rw [List.any_eq_true]
    exact ⟨"worst headache", by simp, hname⟩
  simp only [hany, if_true]
  simp

/-- Claim C4: a symptom whose (lowercased) name contains the critical
red-flag pattern "worst headache" forces `urgency_level = IMMEDIATE`
and `disposition = EMERGENCY_DEPARTMENT`, whatever urgency assessment
and confidence the clinical-reasoning (Gemini) step produced. -/
theorem C4_red_flag_short_circuit (ta : TriageAnalysisDict)
    (va : VoiceAnalysisDict) (sa : SymptomAnalysisDict) (dd : DocumentDataDict)
    (h : ∃ s ∈ sa.symptoms, pyIn "worst headache" (pyLower s.name) = true) :
    (make_triage_decision ta va sa dd).urgency_level = .IMMEDIATE ∧
    (make_triage_decision ta va sa dd).disposition = .EMERGENCY_DEPARTMENT := by
  obtain ⟨s, hs, hn⟩ := h
  have hmem := severe_headache_flag_mem sa s hs hn
  have hany : (identify_red_flags sa).any (fun r => r.severity == "critical") = true := by
    rw [List.any_eq_true]
    exact ⟨severe_headache_flag, hmem, by decide⟩
  have hcalc := calculate_urgency_of_critical ta (identify_red_flags sa) va hany
  constructor
  · rw [mtd_urgency_eq, hcalc]
  · rw [mtd_disposition_eq, hcalc]
    rfl

/-- Witness for C4: the decision on "Worst headache of my life", with
a Gemini analysis that rated the case non-urgent at confidence 0.2. -/
theorem C4_witness :
    (make_triage_decision demoTriageAnalysis {} worstHeadacheSymptoms {}).urgency_level
        = .IMMEDIATE ∧
    (make_triage_decision demoTriageAnalysis {} worstHeadacheSymptoms {}).disposition
        = .EMERGENCY_DEPARTMENT := by
  apply C4_red_flag_short_circuit
  decide

/-- Claim C10: any identified red flag bypasses the Gemini assessment
(the urgency and confidence do not depend on it); the outcome is
IMMEDIATE with confidence 0.95 only when some identified red flag is
"critical", and URGENT with confidence 0.90 when every identified red
flag is non-critical. -/
theorem C10_red_flag_severity_split (ta ta' : TriageAnalysisDict)
    (va : VoiceAnalysisDict) (sa : SymptomAnalysisDict) (dd : DocumentDataDict)
    (h : identify_red_flags sa ≠ []) :
    ((make_triage_decision ta va sa dd).urgency_level =
        (make_triage_decision ta' va sa dd).urgency_level ∧
      (make_triage_decision ta va sa dd).urgency_confidence =
        (make_triage_decision ta' va sa dd).urgency_confidence) ∧
    ((∃ rf ∈ identify_red_flags sa, rf.severity = "critical") →
      (make_triage_decision ta va sa dd).urgency_level = .IMMEDIATE ∧
      (make_triage_decision ta va sa dd).urgency_confidence = 19/20) ∧
    ((∀ rf ∈ identify_red_flags sa, rf.severity ≠ "critical") →
      (make_triage_decision ta va sa dd).urgency_level = .URGENT ∧
      (make_triage_decision ta va sa dd).urgency_confidence = 9/10) := by
  cases hany : (identify_red_flags sa).any (fun r => r.severity == "critical") with
  | true =>
    have hc := calculate_urgency_of_critical ta (identify_red_flags sa) va hany
    have hc' := calculate_urgency_of_critical ta' (identify_red_flags sa) va hany
    refine ⟨⟨?_, ?_⟩, fun _ => ⟨?_, ?_⟩, fun hall => ?_⟩
    · rw [mtd_urgency_eq, mtd_urgency_eq, hc, hc']
    · rw [mtd_confidence_eq, mtd_confidence_eq, hc, hc']
    · rw [mtd_urgency_eq, hc]
    · rw [mtd_confidence_eq, hc]
    · exfalso
      rw [List.any_eq_true] at hany
      obtain ⟨rf, hm, hsev⟩ := hany
      exact hall rf hm (by simpa using hsev)
  | false =>
    have hc := calculate_urgency_of_noncritical ta (identify_red_flags sa) va h hany
    have hc' := calculate_urgency_of_noncritical ta' (identify_red_flags sa) va h hany
    refine ⟨⟨?_, ?_⟩, fun hex => ?_, fun _ => ⟨?_, ?_⟩⟩
    · rw [mtd_urgency_eq, mtd_urgency_eq, hc, hc']
    · rw [mtd_confidence_eq, mtd_confidence_eq, hc, hc']
    · exfalso
      obtain ⟨rf, hm, hsev⟩ := hex
      rw [List.any_eq_false] at hany
      exact hany rf hm (by simp [hsev])
    · rw [mtd_urgency_eq, hc]
    · rw [mtd_confidence_eq, hc]

/-- Witness for C10: severe abdominal pain alone yields one red flag of
severity "high", and the decision is URGENT at confidence 0.90 even
though the Gemini analysis said non-urgent at 0.2. -/
theorem C10_witness :
    identify_red_flags abdominalPainSymptoms ≠ [] ∧
    (make_triage_decision demoTriageAnalysis {} abdominalPainSymptoms {}).urgency_level
        = .URGENT ∧
    (make_triage_decision demoTriageAnalysis {} abdominalPainSymptoms {}).urgency_confidence
        = 9/10 := by
  have h := C10_red_flag_severity_split demoTriageAnalysis demoTriageAnalysis
    {} abdominalPainSymptoms {} (by decide)
  exact ⟨by decide, h.2.2 (by decide)⟩

/-! ## Helper lemmas about the document-evidence merge -/

theorem foldl_mergeDocStep_insurance (docs : List DocumentProcessingResult)
    (dd : DocumentDataDict) :
    (docs.foldl mergeDocStep dd).insurance_info =
      match docs.reverse.find? (fun d => d.insurance_info.isSome) with
      | some d => d.insurance_info.map projInsurance
      | none => dd.insurance_info := by
  induction docs generalizing dd with
  | nil => simp
  | cons d ds ih =>
    rw [List.foldl_cons, ih, List.reverse_cons, List.find?_append]
    cases hfind : ds.reverse.find? (fun x => x.insurance_info.isSome) with
    | some x => simp
    | none =>
      cases hins : d.insurance_info with
      | some ins =>
        cases hmr : d.medical_record with
        | some mr => simp [List.find?, hins, hmr, mergeDocStep, projInsurance]
        | none => simp [List.find?, hins, hmr, mergeDocStep, projInsurance]
      | none =>
        cases hmr : d.medical_record with
        | some mr => simp [List.find?, hins, hmr, mergeDocStep]
        | none => simp [List.find?, hins, hmr, mergeDocStep]

theorem foldl_mergeDocStep_medical (docs : List DocumentProcessingResult)
    (dd : DocumentDataDict) :
    (docs.foldl mergeDocStep dd).medical_record =
      match docs.reverse.find? (fun d => d.medical_record.isSome) with
      | some d => d.medical_record.map projMedicalRecord
      | none => dd.medical_record := by
  induction docs generalizing dd with
  | nil => simp
  | cons d ds ih =>
    rw [List.foldl_cons, ih, List.reverse_cons, List.find?_append]
    cases hfind : ds.reverse.find? (fun x => x.medical_record.isSome) with
    | some x => simp
    | none =>
      cases hins : d.insurance_info with
      | some ins =>
        cases hmr : d.medical_record with
        | some mr => simp [List.find?, hins, hmr, mergeDocStep, projMedicalRecord]
        | none => simp [List.find?, hins, hmr, mergeDocStep]
      | none =>
        cases hmr : d.medical_record with
        | some mr => simp [List.find?, hins, hmr, mergeDocStep, projMedicalRecord]
        | none => simp [List.find?, hins, hmr, mergeDocStep]

/-- Claim C7: the document evidence handed to the triage stage is merged
by iterating the document-result list in input order with later
documents overwriting earlier ones, so each evidence category holds the
projection of the last document in list order that yields it. -/
theorem C7_last_document_wins (docs : List DocumentProcessingResult) :
    (buildDocumentData (some docs)).insurance_info =
      (docs.reverse.find? (fun d => d.insurance_info.isSome)).bind
        (fun d => d.insurance_info.map projInsurance) ∧
    (buildDocumentData (some docs)).medical_record =
      (docs.reverse.find? (fun d => d.medical_record.isSome)).bind
        (fun d => d.medical_record.map projMedicalRecord) := by
  constructor
  · rw [buildDocumentData, foldl_mergeDocStep_insurance]
    cases docs.reverse.find? (fun d => d.insurance_info.isSome) with
    | some x => rfl
    | none => rfl
  · rw [buildDocumentData, foldl_mergeDocStep_medical]
    cases docs.reverse.find? (fun d => d.medical_record.isSome) with
    | some x => rfl
    | none => rfl

/-! ## Registry and exporter claims -/

/-- Claim C8: for a case identifier not present in the registry,
`get_case_status` returns the not-found sentinel `None` and
`export_case_summary` returns the sentinel dict
`{"error": "Case not found"}`; both are total functions, so neither
raises for an unknown identifier. -/
theorem C8_unknown_case_sentinels (reg : Registry) (case_id : String)
    (h : registryGet reg case_id = none) :
    get_case_status reg case_id = none ∧
    export_case_summary reg case_id = .err "Case not found" := by
  constructor
  · rw [get_case_status, h]
  · rw [export_case_summary, h]

/-- Witness for C8: the empty registry holds no case "missing". -/
theorem C8_witness :
    registryGet ([] : Registry) "missing" = none ∧
    get_case_status ([] : Registry) "missing" = none ∧
    export_case_summary ([] : Registry) "missing" = .err "Case not found" := by
  have h := C8_unknown_case_sentinels ([] : Registry) "missing" rfl
  exact ⟨rfl, h.1, h.2⟩

/-- Claim C9: `export_case_summary` is a pure, total function of the
case record (totality is by construction in this embedding, mirroring
the guarded Python accesses): every stage section of the summary is the
`Option.map` of its headline projection over the corresponding slot, so
a section is `None` exactly when its slot is unset, no unset slot is
dereferenced, and a set slot is projected to exactly the listed headline
fields (the projections include the symptom count, the first three
symptom names, and the triage urgency/confidence/disposition/red-flag
count). -/
theorem C9_summary_projection (c : PatientCase) :
    (summarize_case c).case_id = c.case_id ∧
    (summarize_case c).timestamp = c.created_at ∧
    (summarize_case c).status = c.current_stage ∧
    (summarize_case c).voice_analysis = c.voice_result.map voiceSummaryOf ∧
    (summarize_case c).symptoms = c.symptom_result.map symptomsSummaryOf ∧
    (summarize_case c).triage_decision = c.triage_decision.map triageSummaryOf ∧
    (summarize_case c).care_plan_summary = c.care_plan.map carePlanSummaryOf ∧
    ((summarize_case c).voice_analysis = none ↔ c.voice_result = none) ∧
    ((summarize_case c).symptoms = none ↔ c.symptom_result = none) ∧
    ((summarize_case c).triage_decision = none ↔ c.triage_decision = none) ∧
    ((summarize_case c).care_plan_summary = none ↔ c.care_plan = none) ∧
    (∀ sr, c.symptom_result = some sr →
      (summarize_case c).symptoms = some
        { count := sr.symptoms.length
          primary_symptoms := (sr.symptoms.take 3).map (fun s => s.name)
          medical_history := sr.medical_history
          allergies := sr.allergies }) ∧
    (export_case_summary [(c.case_id, c)] c.case_id = .summary (summarize_case c)) := by
  obtain ⟨cid, afp, dip, ca, vr, sr, dr, td, cp, cs, pp, er⟩ := c
  cases vr <;> cases sr <;> cases td <;> cases cp <;>
    simp [summarize_case, export_case_summary, registryGet, List.find?,
      voiceSummaryOf, symptomsSummaryOf, triageSummaryOf, carePlanSummaryOf]

/-! ## Characterization of the stage transformations -/

theorem process_patient_eq (ag : Agents) (case_id : String)
    (audio_file : Option String) (document_images : List String) (now : Nat) :
    process_patient ag case_id audio_file document_images now =
      finishRun
        (pipelineStages ag audio_file document_images
          (initState case_id audio_file document_images now)).1
        (pipelineStages ag audio_file document_images
          (initState case_id audio_file document_images now)).2 := rfl

theorem seqStage_of_ok {f g : StageM} {st st' : RunState}
    (h : f st = (st', none)) : seqStage f g st = g st' := by
  unfold seqStage
  rw [h]

theorem seqStage_of_err {f g : StageM} {st st' : RunState} {e : String}
    (h : f st = (st', some e)) : seqStage f g st = (st', some e) := by
  unfold seqStage
  rw [h]

theorem voiceStage_none (ag : Agents) (st : RunState) :
    voiceStage ag none st = (st, none) := rfl

theorem voiceStage_err (ag : Agents) (af : String) (st : RunState) (e : String)
    (h : ag.voice af = .error e) :
    voiceStage ag (some af) st = (update_progress st "voice_intake" 0, some e) := by
  simp [voiceStage, update_progress, h]

theorem voiceStage_ok (ag : Agents) (af : String) (st : RunState)
    (vr : VoiceIntakeResult) (h : ag.voice af = .ok vr) :
    voiceStage ag (some af) st = (afterVoice st vr, none) := by
  simp [voiceStage, update_progress, setCase, afterVoice, h]

theorem symptomStage_err_novoice (ag : Agents) (st : RunState) (e : String)
    (hvr : st.patientCase.voice_result = none)
    (h : ag.symptom "Sample patient transcript" .empty = .error e) :
    symptomStage ag st = (update_progress st "symptom_reasoning" 20, some e) := by
  simp [symptomStage, update_progress, hvr, h]

theorem symptomStage_ok_novoice (ag : Agents) (st : RunState)
    (sr : SymptomAnalysisResult)
    (hvr : st.patientCase.voice_result = none)
    (h : ag.symptom "Sample patient transcript" .empty = .ok sr) :
    symptomStage ag st = (afterSymptom st sr, none) := by
  simp [symptomStage, update_progress, setCase, afterSymptom, hvr, h]

theorem symptomStage_err_voice (ag : Agents) (st : RunState)
    (vr : VoiceIntakeResult) (e : String)
    (hvr : st.patientCase.voice_result = some vr)
    (h : ag.symptom vr.transcript
          (.ofVoice vr.urgency_level vr.speaker_emotions vr.duration_seconds)
        = .error e) :
    symptomStage ag st = (update_progress st "symptom_reasoning" 20, some e) := by
  simp [symptomStage, update_progress, hvr, h]

theorem symptomStage_ok_voice (ag : Agents) (st : RunState)
    (vr : VoiceIntakeResult) (sr : SymptomAnalysisResult)
    (hvr : st.patientCase.voice_result = some vr)
    (h : ag.symptom vr.transcript
          (.ofVoice vr.urgency_level vr.speaker_emotions vr.duration_seconds)
        = .ok sr) :
    symptomStage ag st = (afterSymptom st sr, none) := by
  simp [symptomStage, update_progress, setCase, afterSymptom, hvr, h]

theorem documentStageResult_nil (ag : Agents) :
    documentStageResult ag [] = .ok [] := rfl

theorem documentStageResult_cons (ag : Agents) (d : String) (ds : List String) :
    documentStageResult ag (d :: ds) =
      run_document_processing ag.document (d :: ds) := rfl

theorem documentStage_res_err (ag : Agents) (docs : List String)
    (st : RunState) (e : String)
    (h : documentStageResult ag docs = .error e) :
    documentStage ag docs st =
      (update_progress st "document_processing" 40, some e) := by
  simp [documentStage, update_progress, h]

theorem documentStage_res_ok (ag : Agents) (docs : List String)
    (st : RunState) (rs : List DocumentProcessingResult)
    (h : documentStageResult ag docs = .ok rs) :
    documentStage ag docs st = (afterDocs st rs, none) := by
  simp [documentStage, update_progress, setCase, afterDocs, h]

theorem triageStage_err (ag : Agents) (st : RunState) (e : String)
    (h : ag.triage (buildVoiceAnalysis st.patientCase.voice_result)
          (buildSymptomAnalysis st.patientCase.symptom_result)
          (buildDocumentData st.patientCase.document_results) = .error e) :
    triageStage ag st = (update_progress st "triage_coordination" 60, some e) := by
  simp [triageStage, update_progress, h]

theorem triageStage_ok (ag : Agents) (st : RunState) (td : TriageDecision)
    (h : ag.triage (buildVoiceAnalysis st.patientCase.voice_result)
          (buildSymptomAnalysis st.patientCase.symptom_result)
          (buildDocumentData st.patientCase.document_results) = .ok td) :
    triageStage ag st = (afterTriage st td, none) := by
  simp [triageStage, update_progress, setCase, afterTriage, h]

theorem carePlanStage_err (ag : Agents) (st : RunState) (e : String)
    (h : ag.carePlan (buildCarePlanInput st.patientCase) = .error e) :
    carePlanStage ag st =
      (update_progress st "care_plan_generation" 80, some e) := by
  simp only [buildCarePlanInput] at h
  simp [carePlanStage, update_progress, buildCarePlanInput, h]

theorem carePlanStage_ok (ag : Agents) (st : RunState) (cp : CarePlan)
    (h : ag.carePlan (buildCarePlanInput st.patientCase) = .ok cp) :
    carePlanStage ag st = (afterCare st cp, none) := by
  simp only [buildCarePlanInput] at h
  simp [carePlanStage, update_progress, setCase, afterCare, buildCarePlanInput, h]

/-! ## The error list is untouched inside the `try` block -/

theorem voiceStage_errors (ag : Agents) (audio : Option String) (st : RunState) :
    ((voiceStage ag audio st).1).patientCase.errors = st.patientCase.errors := by
  cases audio with
  | none => rfl
  | some af =>
    cases hv : ag.voice af with
    | error e =>
      rw [voiceStage_err ag af st e hv]
      rfl
    | ok vr =>
      rw [voiceStage_ok ag af st vr hv]
      rfl

theorem symptomStage_errors (ag : Agents) (st : RunState) :
    ((symptomStage ag st).1).patientCase.errors = st.patientCase.errors := by
  cases hvr : st.patientCase.voice_result with
  | none =>
    cases hs : ag.symptom "Sample patient transcript" .empty with
    | error e =>
      rw [symptomStage_err_novoice ag st e hvr hs]
      rfl
    | ok sr =>
      rw [symptomStage_ok_novoice ag st sr hvr hs]
      rfl
  | some vr =>
    cases hs : ag.symptom vr.transcript
        (.ofVoice vr.urgency_level vr.speaker_emotions vr.duration_seconds) with
    | error e =>
      rw [symptomStage_err_voice ag st vr e hvr hs]
      rfl
    | ok sr =>
      rw [symptomStage_ok_voice ag st vr sr hvr hs]
      rfl

theorem documentStage_errors (ag : Agents) (docs : List String) (st : RunState) :
    ((documentStage ag docs st).1).patientCase.errors = st.patientCase.errors := by
  cases hd : documentStageResult ag docs with
  | error e =>
    rw [documentStage_res_err ag docs st e hd]
    rfl
  | ok rs =>
    rw [documentStage_res_ok ag docs st rs hd]
    rfl

theorem triageStage_errors (ag : Agents) (st : RunState) :
    ((triageStage ag st).1).patientCase.errors = st.patientCase.errors := by
  cases ht : ag.triage (buildVoiceAnalysis st.patientCase.voice_result)
      (buildSymptomAnalysis st.patientCase.symptom_result)
      (buildDocumentData st.patientCase.document_results) with
  | error e =>
    rw [triageStage_err ag st e ht]
    rfl
  | ok td =>
    rw [triageStage_ok ag st td ht]
    rfl

theorem carePlanStage_errors (ag : Agents) (st : RunState) :
    ((carePlanStage ag st).1).patientCase.errors = st.patientCase.errors := by
  cases hc : ag.carePlan (buildCarePlanInput st.patientCase) with
  | error e =>
    rw [carePlanStage_err ag st e hc]
    rfl
  | ok cp =>
    rw [carePlanStage_ok ag st cp hc]
    rfl

theorem seqStage_errors {f g : StageM}
    (hf : ∀ st, ((f st).1).patientCase.errors = st.patientCase.errors)
    (hg : ∀ st, ((g st).1).patientCase.errors = st.patientCase.errors)
    (st : RunState) :
    ((seqStage f g st).1).patientCase.errors = st.patientCase.errors := by
  unfold seqStage
  cases hfs : f st with
  | mk st' r =>
    have h1 : st'.patientCase.errors = st.patientCase.errors := by
      have := hf st
      rw [hfs] at this
      exact this
    cases r with
    | none =>
      rw [hg st', h1]
    | some e =>
      exact h1

theorem pipelineStages_errors (ag : Agents) (audio : Option String)
    (docs : List String) (st : RunState) :
    ((pipelineStages ag audio docs st).1).patientCase.errors =
      st.patientCase.errors := by
  unfold pipelineStages
  exact seqStage_errors (voiceStage_errors ag audio)
    (seqStage_errors (symptomStage_errors ag)
      (seqStage_errors (documentStage_errors ag docs)
        (seqStage_errors (triageStage_errors ag) (carePlanStage_errors ag)))) st

/-! ## The stage invariant: no terminal stage value inside the `try` block -/

theorem nonTerminal_initialized : NonTerminal "initialized" :=
  ⟨by decide, by decide⟩

theorem nonTerminal_voice_intake : NonTerminal "voice_intake" :=
  ⟨by decide, by decide⟩

theorem nonTerminal_symptom_reasoning : NonTerminal "symptom_reasoning" :=
  ⟨by decide, by decide⟩

theorem nonTerminal_document_processing : NonTerminal "document_processing" :=
  ⟨by decide, by decide⟩

theorem nonTerminal_triage_coordination : NonTerminal "triage_coordination" :=
  ⟨by decide, by decide⟩

theorem nonTerminal_care_plan_generation : NonTerminal "care_plan_generation" :=
  ⟨by decide, by decide⟩

theorem stageInv_update_progress (st : RunState) (s : String) (p : Nat)
    (h : StageInv st) (hs : NonTerminal s) :
    StageInv (update_progress st s p) := by
  refine ⟨hs, ?_⟩
  intro c hc
  simp only [update_progress, List.mem_append, List.mem_singleton] at hc
  rcases hc with hc | rfl
  · exact h.2 c hc
  · exact hs

theorem stageInv_afterVoice (st : RunState) (vr : VoiceIntakeResult)
    (h : StageInv st) : StageInv (afterVoice st vr) := by
  refine ⟨nonTerminal_voice_intake, ?_⟩
  intro c hc
  simp only [afterVoice, List.mem_append, List.mem_cons,
    List.not_mem_nil, or_false] at hc
  rcases hc with hc | rfl | rfl | rfl
  · exact h.2 c hc
  all_goals exact nonTerminal_voice_intake

theorem stageInv_afterSymptom (st : RunState) (sr : SymptomAnalysisResult)
    (h : StageInv st) : StageInv (afterSymptom st sr) := by
  refine ⟨nonTerminal_symptom_reasoning, ?_⟩
  intro c hc
  simp only [afterSymptom, List.mem_append, List.mem_cons,
    List.not_mem_nil, or_false] at hc
  rcases hc with hc | rfl | rfl | rfl
  · exact h.2 c hc
  all_goals exact nonTerminal_symptom_reasoning

theorem stageInv_afterDocs (st : RunState)
    (rs : List DocumentProcessingResult) (h : StageInv st) :
    StageInv (afterDocs st rs) := by
  refine ⟨nonTerminal_document_processing, ?_⟩
  intro c hc
  simp only [afterDocs, List.mem_append, List.mem_cons,
    List.not_mem_nil, or_false] at hc
  rcases hc with hc | rfl | rfl | rfl
  · exact h.2 c hc
  all_goals exact nonTerminal_document_processing

theorem stageInv_afterTriage (st : RunState) (td : TriageDecision)
    (h : StageInv st) : StageInv (afterTriage st td) := by
  refine ⟨nonTerminal_triage_coordination, ?_⟩
  intro c hc
  simp only [afterTriage, List.mem_append, List.mem_cons,
    List.not_mem_nil, or_false] at hc
  rcases hc with hc | rfl | rfl | rfl
  · exact h.2 c hc
  all_goals exact nonTerminal_triage_coordination

theorem stageInv_afterCare (st : RunState) (cp : CarePlan)
    (h : StageInv st) : StageInv (afterCare st cp) := by
  refine ⟨nonTerminal_care_plan_generation, ?_⟩
  intro c hc
  simp only [afterCare, List.mem_append, List.mem_cons,
    List.not_mem_nil, or_false] at hc
  rcases hc with hc | rfl | rfl | rfl
  · exact h.2 c hc
  all_goals exact nonTerminal_care_plan_generation

theorem voiceStage_inv (ag : Agents) (audio : Option String) (st : RunState)
    (h : StageInv st) : StageInv ((voiceStage ag audio st).1) := by
  cases audio with
  | none => exact h
  | some af =>
    cases hv : ag.voice af with
    | error e =>
      rw [voiceStage_err ag af st e hv]
      exact stageInv_update_progress st "voice_intake" 0 h nonTerminal_voice_intake
    | ok vr =>
      rw [voiceStage_ok ag af st vr hv]
      exact stageInv_afterVoice st vr h

theorem symptomStage_inv (ag : Agents) (st : RunState)
    (h : StageInv st) : StageInv ((symptomStage ag st).1) := by
  cases hvr : st.patientCase.voice_result with
  | none =>
    cases hs : ag.symptom "Sample patient transcript" .empty with
    | error e =>
      rw [symptomStage_err_novoice ag st e hvr hs]
      exact stageInv_update_progress st "symptom_reasoning" 20 h nonTerminal_symptom_reasoning
    | ok sr =>
      rw [symptomStage_ok_novoice ag st sr hvr hs]
      exact stageInv_afterSymptom st sr h
  | some vr =>
    cases hs : ag.symptom vr.transcript
        (.ofVoice vr.urgency_level vr.speaker_emotions vr.duration_seconds) with
    | error e =>
      rw [symptomStage_err_voice ag st vr e hvr hs]
      exact stageInv_update_progress st "symptom_reasoning" 20 h nonTerminal_symptom_reasoning
    | ok sr =>
      rw [symptomStage_ok_voice ag st vr sr hvr hs]
      exact stageInv_afterSymptom st sr h

theorem documentStage_inv (ag : Agents) (docs : List String) (st : RunState)
    (h : StageInv st) : StageInv ((documentStage ag docs st).1) := by
  cases hd : documentStageResult ag docs with
  | error e =>
    rw [documentStage_res_err ag docs st e hd]
    exact stageInv_update_progress st "document_processing" 40 h nonTerminal_document_processing
  | ok rs =>
    rw [documentStage_res_ok ag docs st rs hd]
    exact stageInv_afterDocs st rs h

theorem triageStage_inv (ag : Agents) (st : RunState)
    (h : StageInv st) : StageInv ((triageStage ag st).1) := by
  cases ht : ag.triage (buildVoiceAnalysis st.patientCase.voice_result)
      (buildSymptomAnalysis st.patientCase.symptom_result)
      (buildDocumentData st.patientCase.document_results) with
  | error e =>
    rw [triageStage_err ag st e ht]
    exact stageInv_update_progress st "triage_coordination" 60 h nonTerminal_triage_coordination
  | ok td =>
    rw [triageStage_ok ag st td ht]
    exact stageInv_afterTriage st td h

theorem carePlanStage_inv (ag : Agents) (st : RunState)
    (h : StageInv st) : StageInv ((carePlanStage ag st).1) := by
  cases hc : ag.carePlan (buildCarePlanInput st.patientCase) with
  | error e =>
    rw [carePlanStage_err ag st e hc]
    exact stageInv_update_progress st "care_plan_generation" 80 h nonTerminal_care_plan_generation
  | ok cp =>
    rw [carePlanStage_ok ag st cp hc]
    exact stageInv_afterCare st cp h

theorem seqStage_inv {f g : StageM}
    (hf : ∀ st, StageInv st → StageInv ((f st).1))
    (hg : ∀ st, StageInv st → StageInv ((g st).1))
    (st : RunState) (h : StageInv st) :
    StageInv ((seqStage f g st).1) := by
  unfold seqStage
  cases hfs : f st with
  | mk st' r =>
    have h1 : StageInv st' := by
      have := hf st h
      rw [hfs] at this
      exact this
    cases r with
    | none => exact hg st' h1
    | some e => exact h1

theorem pipelineStages_inv (ag : Agents) (audio : Option String)
    (docs : List String) (st : RunState) (h : StageInv st) :
    StageInv ((pipelineStages ag audio docs st).1) := by
  unfold pipelineStages
  exact seqStage_inv (voiceStage_inv ag audio)
    (seqStage_inv (symptomStage_inv ag)
      (seqStage_inv (documentStage_inv ag docs)
        (seqStage_inv (triageStage_inv ag) (carePlanStage_inv ag)))) st h

theorem initState_inv (case_id : String) (audio : Option String)
    (docs : List String) (now : Nat) :
    StageInv (initState case_id audio docs now) := by
  refine ⟨nonTerminal_initialized, ?_⟩
  intro c hc
  simp only [initState, initialCase, List.mem_singleton] at hc
  subst hc
  exact nonTerminal_initialized

/-! ## Leaving the `try` block -/

theorem finishRun_some_outcome (st : RunState) (e : String) :
    (finishRun st (some e)).outcome = .error e := rfl

theorem finishRun_some_finalCase (st : RunState) (e : String) :
    (finishRun st (some e)).finalCase =
      { st.patientCase with
         errors := st.patientCase.errors ++ ["Processing error: " ++ e]
         current_stage := "failed" } := rfl

theorem finishRun_some_notifications (st : RunState) (e : String) :
    (finishRun st (some e)).notifications = st.notifications := rfl

theorem finishRun_some_trace (st : RunState) (e : String) :
    (finishRun st (some e)).trace =
      st.trace ++
        [{ st.patientCase with
            errors := st.patientCase.errors ++ ["Processing error: " ++ e] },
         { st.patientCase with
            errors := st.patientCase.errors ++ ["Processing error: " ++ e]
            current_stage := "failed" }] := rfl

theorem finishRun_none_outcome (st : RunState) :
    (finishRun st none).outcome =
      .ok { st.patientCase with current_stage := "completed" } := rfl

theorem finishRun_none_finalCase (st : RunState) :
    (finishRun st none).finalCase =
      { st.patientCase with current_stage := "completed" } := rfl

theorem finishRun_none_notifications (st : RunState) :
    (finishRun st none).notifications = st.notifications := rfl

theorem finishRun_none_trace (st : RunState) :
    (finishRun st none).trace =
      st.trace ++ [{ st.patientCase with current_stage := "completed" }] := rfl

/-! ## Claim C1: hard faults abort the run -/

/-- Claim C1: any stage hard fault makes `process_patient` append
exactly one error entry, set the stage to "failed", and re-raise the
fault; for a fan-out fault in particular (voice and symptom stages
succeed, some per-document invocation faults), the sibling results are
discarded (the document-result slot stays unset) and the
triage-decision and care-plan slots stay unset. -/
theorem C1_hard_fault_aborts (ag : Agents) (case_id : String)
    (audio_file : Option String) (docs : List String) (now : Nat) :
    (∀ e, (process_patient ag case_id audio_file docs now).outcome = .error e →
      (process_patient ag case_id audio_file docs now).finalCase.current_stage
          = "failed" ∧
      (process_patient ag case_id audio_file docs now).finalCase.errors
          = ["Processing error: " ++ e]) ∧
    (∀ e, (∀ af, audio_file = some af → ∃ vr, ag.voice af = .ok vr) →
      (∀ t ctx, ∃ sr, ag.symptom t ctx = .ok sr) →
      docs ≠ [] →
      run_document_processing ag.document docs = .error e →
      (process_patient ag case_id audio_file docs now).outcome = .error e ∧
      (process_patient ag case_id audio_file docs now).finalCase.document_results
          = none ∧
      (process_patient ag case_id audio_file docs now).finalCase.triage_decision
          = none ∧
      (process_patient ag case_id audio_file docs now).finalCase.care_plan
          = none ∧
      (process_patient ag case_id audio_file docs now).finalCase.current_stage
          = "failed" ∧
      (process_patient ag case_id audio_file docs now).finalCase.errors
          = ["Processing error: " ++ e]) := by
  constructor
  · intro e h
    rcases hp : pipelineStages ag audio_file docs
        (initState case_id audio_file docs now) with ⟨stf, r⟩
    have herr : stf.patientCase.errors = [] := by
      have h2 := pipelineStages_errors ag audio_file docs
        (initState case_id audio_file docs now)
      rw [hp] at h2
      simpa [initState, initialCase] using h2
    rw [process_patient_eq, hp] at h ⊢
    cases r with
    | none =>
      rw [finishRun_none_outcome] at h
      exact absurd h (by simp)
    | some ef =>
      rw [finishRun_some_outcome] at h
      obtain rfl : ef = e := by simpa using h
      refine ⟨?_, ?_⟩
      · rw [finishRun_some_finalCase]
      · rw [finishRun_some_finalCase]
        simp [herr]
  · intro e hv hs hne hd
    have hd' : documentStageResult ag docs = .error e := by
      cases docs with
      | nil => exact absurd rfl hne
      | cons d ds => rw [documentStageResult_cons]; exact hd
    cases audio_file with
    | none =>
      obtain ⟨sr, hsr⟩ := hs "Sample patient transcript" .empty
      have h1 := voiceStage_none ag (initState case_id none docs now)
      have h2 := symptomStage_ok_novoice ag
        (initState case_id none docs now) sr rfl hsr
      have h3 := documentStage_res_err ag docs
        (afterSymptom (initState case_id none docs now) sr) e hd'
      have hp : pipelineStages ag none docs (initState case_id none docs now)
          = (update_progress (afterSymptom (initState case_id none docs now) sr)
              "document_processing" 40, some e) := by
        unfold pipelineStages
        rw [seqStage_of_ok h1, seqStage_of_ok h2, seqStage_of_err h3]
      rw [process_patient_eq, hp]
      refine ⟨?_, ?_, ?_, ?_, ?_, ?_⟩ <;>
        simp [finishRun_some_outcome, finishRun_some_finalCase,
          update_progress, afterSymptom, initState, initialCase]
    | some af =>
      obtain ⟨vr, hvr⟩ := hv af rfl
      obtain ⟨sr, hsr⟩ := hs vr.transcript
        (.ofVoice vr.urgency_level vr.speaker_emotions vr.duration_seconds)
      have h1 := voiceStage_ok ag af (initState case_id (some af) docs now) vr hvr
      have h2 := symptomStage_ok_voice ag
        (afterVoice (initState case_id (some af) docs now) vr) vr sr rfl hsr
      have h3 := documentStage_res_err ag docs
        (afterSymptom (afterVoice (initState case_id (some af) docs now) vr) sr)
        e hd'
      have hp : pipelineStages ag (some af) docs
            (initState case_id (some af) docs now)
          = (update_progress
              (afterSymptom
                (afterVoice (initState case_id (some af) docs now) vr) sr)
              "document_processing" 40, some e) := by
        unfold pipelineStages
        rw [seqStage_of_ok h1, seqStage_of_ok h2, seqStage_of_err h3]
      rw [process_patient_eq, hp]
      refine ⟨?_, ?_, ?_, ?_, ?_, ?_⟩ <;>
        simp [finishRun_some_outcome, finishRun_some_finalCase,
          update_progress, afterSymptom, afterVoice, initState, initialCase]

/-- Witness for C1: the fan-out over [A, B, C] where the invocation for
B faults. -/
theorem C1_witness :
    (process_patient failDocAgents "W1" none ["A", "B", "C"] 0).outcome
        = .error "Vision API unavailable" ∧
    (process_patient failDocAgents "W1" none ["A", "B", "C"] 0).finalCase.document_results
        = none ∧
    (process_patient failDocAgents "W1" none ["A", "B", "C"] 0).finalCase.triage_decision
        = none ∧
    (process_patient failDocAgents "W1" none ["A", "B", "C"] 0).finalCase.care_plan
        = none ∧
    (process_patient failDocAgents "W1" none ["A", "B", "C"] 0).finalCase.current_stage
        = "failed" ∧
    (process_patient failDocAgents "W1" none ["A", "B", "C"] 0).finalCase.errors
        = ["Processing error: Vision API unavailable"] := by
  have h := (C1_hard_fault_aborts failDocAgents "W1" none ["A", "B", "C"] 0).2
    "Vision API unavailable"
    (fun af haf => by cases haf)
    (fun t ctx => ⟨demoSymptomResult, rfl⟩)
    (by decide)
    (by rfl)
  exact h

/-! ## Claim C6: terminal stages freeze the record -/

theorem only_last_terminal (l : List PatientCase) (t : PatientCase)
    (h : ∀ c ∈ l, NonTerminal c.current_stage) (i j : Nat) (hij : i ≤ j)
    (ci cj : PatientCase)
    (hci : (l ++ [t])[i]? = some ci) (hcj : (l ++ [t])[j]? = some cj)
    (hterm : ci.current_stage = "failed" ∨ ci.current_stage = "completed") :
    cj = ci := by
  have hilen : i < l.length + 1 := by
    rcases List.getElem?_eq_some.mp hci with ⟨hlt, _⟩
    simpa using hlt
  have hi : i = l.length := by
    by_contra hne
    have hlt : i < l.length := by omega
    rw [List.getElem?_append_left hlt] at hci
    have hmem : ci ∈ l := List.getElem?_mem hci
    have := h ci hmem
    rcases hterm with ht | ht
    · exact this.1 ht
    · exact this.2 ht
  have hjlen : j < l.length + 1 := by
    rcases List.getElem?_eq_some.mp hcj with ⟨hlt, _⟩
    simpa using hlt
  have hj : j = l.length := by omega
  subst hi
  subst hj
  rw [List.getElem?_concat_length] at hci hcj
  injection hci with h1
  injection hcj with h2
  rw [← h1, ← h2]

/-- Claim C6: once a traced case-record value carries the terminal
stage "failed" or "completed", every later entry of the run's mutation
trace is that same record value — the terminal assignment is the last
mutation the run performs. -/
theorem C6_terminal_stage_frozen (ag : Agents) (case_id : String)
    (audio_file : Option String) (docs : List String) (now : Nat)
    (i j : Nat) (hij : i ≤ j) (ci cj : PatientCase)
    (hci : (process_patient ag case_id audio_file docs now).trace[i]? = some ci)
    (hcj : (process_patient ag case_id audio_file docs now).trace[j]? = some cj)
    (hterm : ci.current_stage = "failed" ∨ ci.current_stage = "completed") :
    cj = ci := by
  rcases hp : pipelineStages ag audio_file docs
      (initState case_id audio_file docs now) with ⟨stf, r⟩
  have hinv := pipelineStages_inv ag audio_file docs
    (initState case_id audio_file docs now)
    (initState_inv case_id audio_file docs now)
  rw [hp] at hinv
  rw [process_patient_eq, hp] at hci hcj
  cases r with
  | none =>
    rw [finishRun_none_trace] at hci hcj
    exact only_last_terminal stf.trace _ hinv.2 i j hij ci cj hci hcj hterm
  | some e =>
    rw [finishRun_some_trace] at hci hcj
    have hsplit : stf.trace ++
        [{ stf.patientCase with
            errors := stf.patientCase.errors ++ ["Processing error: " ++ e] },
         { stf.patientCase with
            errors := stf.patientCase.errors ++ ["Processing error: " ++ e]
            current_stage := "failed" }] =
        (stf.trace ++
          [{ stf.patientCase with
              errors := stf.patientCase.errors ++ ["Processing error: " ++ e] }]) ++
        [{ stf.patientCase with
            errors := stf.patientCase.errors ++ ["Processing error: " ++ e]
            current_stage := "failed" }] := by
      simp
    rw [hsplit] at hci hcj
    refine only_last_terminal _ _ ?_ i j hij ci cj hci hcj hterm
    intro c hc
    rcases List.mem_append.mp hc with hc | hc
    · exact hinv.2 c hc
    · rw [List.mem_singleton] at hc
      subst hc
      exact hinv.1

/-! ## Voice-slot preservation for audio-less runs (claim C5) -/

theorem voiceUnset_update_progress (st : RunState) (s : String) (p : Nat)
    (h : VoiceUnset st) (hs : s ≠ "voice_intake") :
    VoiceUnset (update_progress st s p) := by
  refine ⟨h.1, ?_, ?_⟩
  · intro c hc
    simp only [update_progress, List.mem_append, List.mem_singleton] at hc
    rcases hc with hc | rfl
    · exact h.2.1 c hc
    · exact h.1
  · intro n hn
    simp only [update_progress, List.mem_append, List.mem_singleton] at hn
    rcases hn with hn | rfl
    · exact h.2.2 n hn
    · exact hs

theorem voiceUnset_afterSymptom (st : RunState) (sr : SymptomAnalysisResult)
    (h : VoiceUnset st) : VoiceUnset (afterSymptom st sr) := by
  refine ⟨h.1, ?_, ?_⟩
  · intro c hc
    simp only [afterSymptom, List.mem_append, List.mem_cons,
      List.not_mem_nil, or_false] at hc
    rcases hc with hc | rfl | rfl | rfl
    · exact h.2.1 c hc
    all_goals exact h.1
  · intro n hn
    simp only [afterSymptom, List.mem_append, List.mem_cons,
      List.not_mem_nil, or_false] at hn
    rcases hn with hn | rfl | rfl
    · exact h.2.2 n hn
    all_goals exact (by decide : ("symptom_reasoning" : String) ≠ "voice_intake")

theorem voiceUnset_afterDocs (st : RunState)
    (rs : List DocumentProcessingResult) (h : VoiceUnset st) :
    VoiceUnset (afterDocs st rs) := by
  refine ⟨h.1, ?_, ?_⟩
  · intro c hc
    simp only [afterDocs, List.mem_append, List.mem_cons,
      List.not_mem_nil, or_false] at hc
    rcases hc with hc | rfl | rfl | rfl
    · exact h.2.1 c hc
    all_goals exact h.1
  · intro n hn
    simp only [afterDocs, List.mem_append, List.mem_cons,
      List.not_mem_nil, or_false] at hn
    rcases hn with hn | rfl | rfl
    · exact h.2.2 n hn
    all_goals exact (by decide : ("document_processing" : String) ≠ "voice_intake")

theorem voiceUnset_afterTriage (st : RunState) (td : TriageDecision)
    (h : VoiceUnset st) : VoiceUnset (afterTriage st td) := by
  refine ⟨h.1, ?_, ?_⟩
  · intro c hc
    simp only [afterTriage, List.mem_append, List.mem_cons,
      List.not_mem_nil, or_false] at hc
    rcases hc with hc | rfl | rfl | rfl
    · exact h.2.1 c hc
    all_goals exact h.1
  · intro n hn
    simp only [afterTriage, List.mem_append, List.mem_cons,
      List.not_mem_nil, or_false] at hn
    rcases hn with hn | rfl | rfl
    · exact h.2.2 n hn
    all_goals exact (by decide : ("triage_coordination" : String) ≠ "voice_intake")

theorem voiceUnset_afterCare (st : RunState) (cp : CarePlan)
    (h : VoiceUnset st) : VoiceUnset (afterCare st cp) := by
  refine ⟨h.1, ?_, ?_⟩
  · intro c hc
    simp only [afterCare, List.mem_append, List.mem_cons,
      List.not_mem_nil, or_false] at hc
    rcases hc with hc | rfl | rfl | rfl
    · exact h.2.1 c hc
    all_goals exact h.1
  · intro n hn
    simp only [afterCare, List.mem_append, List.mem_cons,
      List.not_mem_nil, or_false] at hn
    rcases hn with hn | rfl | rfl
    · exact h.2.2 n hn
    all_goals exact (by decide : ("care_plan_generation" : String) ≠ "voice_intake")

theorem symptomStage_voiceUnset (ag : Agents) (st : RunState)
    (h : VoiceUnset st) : VoiceUnset ((symptomStage ag st).1) := by
  cases hs : ag.symptom "Sample patient transcript" .empty with
  | error e =>
    rw [symptomStage_err_novoice ag st e h.1 hs]
    exact voiceUnset_update_progress st _ 20 h (by decide)
  | ok sr =>
    rw [symptomStage_ok_novoice ag st sr h.1 hs]
    exact voiceUnset_afterSymptom st sr h

theorem documentStage_voiceUnset (ag : Agents) (docs : List String)
    (st : RunState) (h : VoiceUnset st) :
    VoiceUnset ((documentStage ag docs st).1) := by
  cases hd : documentStageResult ag docs with
  | error e =>
    rw [documentStage_res_err ag docs st e hd]
    exact voiceUnset_update_progress st _ 40 h (by decide)
  | ok rs =>
    rw [documentStage_res_ok ag docs st rs hd]
    exact voiceUnset_afterDocs st rs h

theorem triageStage_voiceUnset (ag : Agents) (st : RunState)
    (h : VoiceUnset st) : VoiceUnset ((triageStage ag st).1) := by
  cases ht : ag.triage (buildVoiceAnalysis st.patientCase.voice_result)
      (buildSymptomAnalysis st.patientCase.symptom_result)
      (buildDocumentData st.patientCase.document_results) with
  | error e =>
    rw [triageStage_err ag st e ht]
    exact voiceUnset_update_progress st _ 60 h (by decide)
  | ok td =>
    rw [triageStage_ok ag st td ht]
    exact voiceUnset_afterTriage st td h

theorem carePlanStage_voiceUnset (ag : Agents) (st : RunState)
    (h : VoiceUnset st) : VoiceUnset ((carePlanStage ag st).1) := by
  cases hc : ag.carePlan (buildCarePlanInput st.patientCase) with
  | error e =>
    rw [carePlanStage_err ag st e hc]
    exact voiceUnset_update_progress st _ 80 h (by decide)
  | ok cp =>
    rw [carePlanStage_ok ag st cp hc]
    exact voiceUnset_afterCare st cp h

theorem seqStage_voiceUnset {f g : StageM}
    (hf : ∀ st, VoiceUnset st → VoiceUnset ((f st).1))
    (hg : ∀ st, VoiceUnset st → VoiceUnset ((g st).1))
    (st : RunState) (h : VoiceUnset st) :
    VoiceUnset ((seqStage f g st).1) := by
  unfold seqStage
  cases hfs : f st with
  | mk st' r =>
    have h1 : VoiceUnset st' := by
      have := hf st h
      rw [hfs] at this
      exact this
    cases r with
    | none => exact hg st' h1
    | some e => exact h1

theorem pipelineStages_voiceUnset (ag : Agents) (docs : List String)
    (st : RunState) (h : VoiceUnset st) :
    VoiceUnset ((pipelineStages ag none docs st).1) := by
  unfold pipelineStages
  refine seqStage_voiceUnset (fun st h => h)
    (seqStage_voiceUnset (symptomStage_voiceUnset ag)
      (seqStage_voiceUnset (documentStage_voiceUnset ag docs)
        (seqStage_voiceUnset (triageStage_voiceUnset ag)
          (carePlanStage_voiceUnset ag)))) st h

/-! ## Field preservation by the later stages (claim C5) -/

theorem seqStage_preserves {α : Type} (proj : PatientCase → α) {f g : StageM}
    (hf : ∀ st, proj ((f st).1).patientCase = proj st.patientCase)
    (hg : ∀ st, proj ((g st).1).patientCase = proj st.patientCase)
    (st : RunState) :
    proj ((seqStage f g st).1).patientCase = proj st.patientCase := by
  unfold seqStage
  cases hfs : f st with
  | mk st' r =>
    have h1 : proj st'.patientCase = proj st.patientCase := by
      have := hf st
      rw [hfs] at this
      exact this
    cases r with
    | none => rw [hg st', h1]
    | some e => exact h1

theorem documentStage_symptom (ag : Agents) (docs : List String)
    (st : RunState) :
    ((documentStage ag docs st).1).patientCase.symptom_result
      = st.patientCase.symptom_result := by
  cases hd : documentStageResult ag docs with
  | error e =>
    rw [documentStage_res_err ag docs st e hd]
    rfl
  | ok rs =>
    rw [documentStage_res_ok ag docs st rs hd]
    rfl

theorem triageStage_symptom (ag : Agents) (st : RunState) :
    ((triageStage ag st).1).patientCase.symptom_result
      = st.patientCase.symptom_result := by
  cases ht : ag.triage (buildVoiceAnalysis st.patientCase.voice_result)
      (buildSymptomAnalysis st.patientCase.symptom_result)
      (buildDocumentData st.patientCase.document_results) with
  | error e =>
    rw [triageStage_err ag st e ht]
    rfl
  | ok td =>
    rw [triageStage_ok ag st td ht]
    rfl

theorem carePlanStage_symptom (ag : Agents) (st : RunState) :
    ((carePlanStage ag st).1).patientCase.symptom_result
      = st.patientCase.symptom_result := by
  cases hc : ag.carePlan (buildCarePlanInput st.patientCase) with
  | error e =>
    rw [carePlanStage_err ag st e hc]
    rfl
  | ok cp =>
    rw [carePlanStage_ok ag st cp hc]
    rfl

/-- Claim C5: with no audio reference the VoiceIntake stage never runs
(the voice slot is unset in the final record and in every traced record
value, and no "voice_intake" progress notification is delivered);
SymptomReasoning is invoked with the placeholder transcript
"Sample patient transcript" and the empty urgency context (its fault
propagates, its result lands in the symptom slot whatever happens
later); and when the remaining stages succeed, the run finishes with
final state "completed". -/
theorem C5_no_audio_skips_voice (ag : Agents) (case_id : String)
    (docs : List String) (now : Nat) :
    (∀ c ∈ (process_patient ag case_id none docs now).trace,
      c.voice_result = none) ∧
    (process_patient ag case_id none docs now).finalCase.voice_result = none ∧
    (∀ n ∈ (process_patient ag case_id none docs now).notifications,
      n.2.1 ≠ "voice_intake") ∧
    (∀ e, ag.symptom "Sample patient transcript" .empty = .error e →
      (process_patient ag case_id none docs now).outcome = .error e) ∧
    (∀ sr, ag.symptom "Sample patient transcript" .empty = .ok sr →
      (process_patient ag case_id none docs now).finalCase.symptom_result
        = some sr) ∧
    (∀ sr rs td cp,
      ag.symptom "Sample patient transcript" .empty = .ok sr →
      documentStageResult ag docs = .ok rs →
      ag.triage (buildVoiceAnalysis none) (buildSymptomAnalysis (some sr))
        (buildDocumentData (some rs)) = .ok td →
      ag.carePlan (buildCarePlanInput
        (afterTriage (afterDocs
          (afterSymptom (initState case_id none docs now) sr) rs)
          td).patientCase) = .ok cp →
      (process_patient ag case_id none docs now).outcome
        = .ok (process_patient ag case_id none docs now).finalCase ∧
      (process_patient ag case_id none docs now).finalCase.current_stage
        = "completed") := by
  rcases hp : pipelineStages ag none docs (initState case_id none docs now)
    with ⟨stf, r⟩
  have hvu : VoiceUnset stf := by
    have h0 : VoiceUnset (initState case_id none docs now) := by
      refine ⟨rfl, ?_, ?_⟩
      · intro c hc
        simp only [initState, initialCase, List.mem_singleton] at hc
        subst hc
        rfl
      · intro n hn
        simp only [initState, List.not_mem_nil] at hn
    have := pipelineStages_voiceUnset ag docs (initState case_id none docs now) h0
    rw [hp] at this
    exact this
  refine ⟨?_, ?_, ?_, ?_, ?_, ?_⟩
  · intro c hc
    rw [process_patient_eq, hp] at hc
    cases r with
    | none =>
      rw [finishRun_none_trace] at hc
      rcases List.mem_append.mp hc with hc | hc
      · exact hvu.2.1 c hc
      · rw [List.mem_singleton] at hc
        subst hc
        exact hvu.1
    | some e =>
      rw [finishRun_some_trace] at hc
      rcases List.mem_append.mp hc with hc | hc
      · exact hvu.2.1 c hc
      · rcases List.mem_cons.mp hc with rfl | hc
        · exact hvu.1
        · rw [List.mem_singleton] at hc
          subst hc
          exact hvu.1
  · rw [process_patient_eq, hp]
    cases r with
    | none =>
      rw [finishRun_none_finalCase]
      exact hvu.1
    | some e =>
      rw [finishRun_some_finalCase]
      exact hvu.1
  · intro n hn
    rw [process_patient_eq, hp] at hn
    cases r with
    | none =>
      rw [finishRun_none_notifications] at hn
      exact hvu.2.2 n hn
    | some e =>
      rw [finishRun_some_notifications] at hn
      exact hvu.2.2 n hn
  · intro e hs
    have hps : pipelineStages ag none docs (initState case_id none docs now)
        = (update_progress (initState case_id none docs now)
            "symptom_reasoning" 20, some e) := by
      unfold pipelineStages
      rw [seqStage_of_ok (voiceStage_none ag (initState case_id none docs now)),
        seqStage_of_err (symptomStage_err_novoice ag
          (initState case_id none docs now) e rfl hs)]
    rw [process_patient_eq, hps, finishRun_some_outcome]
  · intro sr hs
    have hsp : ((seqStage (documentStage ag docs)
        (seqStage (triageStage ag) (carePlanStage ag))
          (afterSymptom (initState case_id none docs now) sr)).1).patientCase.symptom_result
        = some sr := by
      rw [seqStage_preserves (fun c => c.symptom_result)
        (documentStage_symptom ag docs)
        (seqStage_preserves (fun c => c.symptom_result)
          (triageStage_symptom ag) (carePlanStage_symptom ag))]
      rfl
    have hps : pipelineStages ag none docs (initState case_id none docs now)
        = seqStage (documentStage ag docs)
            (seqStage (triageStage ag) (carePlanStage ag))
            (afterSymptom (initState case_id none docs now) sr) := by
      unfold pipelineStages
      rw [seqStage_of_ok (voiceStage_none ag (initState case_id none docs now)),
        seqStage_of_ok (symptomStage_ok_novoice ag
          (initState case_id none docs now) sr rfl hs)]
    rw [process_patient_eq]
    rcases hrest : seqStage (documentStage ag docs)
        (seqStage (triageStage ag) (carePlanStage ag))
        (afterSymptom (initState case_id none docs now) sr) with ⟨stf', r'⟩
    rw [hps, hrest]
    rw [hrest] at hsp
    cases r' with
    | none =>
      rw [finishRun_none_finalCase]
      exact hsp
    | some e =>
      rw [finishRun_some_finalCase]
      exact hsp
  · intro sr rs td cp hs hd ht hc
    have hps : pipelineStages ag none docs (initState case_id none docs now)
        = (afterCare (afterTriage (afterDocs
            (afterSymptom (initState case_id none docs now) sr) rs) td) cp,
           none) := by
      unfold pipelineStages
      rw [seqStage_of_ok (voiceStage_none ag (initState case_id none docs now)),
        seqStage_of_ok (symptomStage_ok_novoice ag
          (initState case_id none docs now) sr rfl hs),
        seqStage_of_ok (documentStage_res_ok ag docs
          (afterSymptom (initState case_id none docs now) sr) rs hd),
        seqStage_of_ok (triageStage_ok ag
          (afterDocs (afterSymptom (initState case_id none docs now) sr) rs)
          td (by exact ht))]
      exact carePlanStage_ok ag
        (afterTriage (afterDocs
          (afterSymptom (initState case_id none docs now) sr) rs) td) cp hc
    rw [process_patient_eq, hps]
    exact ⟨rfl, rfl⟩

/-- Witness for C5: the audio-less demo run completes with the voice
slot unset and the placeholder symptom result stored. -/
theorem C5_witness :
    (process_patient demoAgents "W5" none [] 0).finalCase.voice_result = none ∧
    (process_patient demoAgents "W5" none [] 0).finalCase.symptom_result
      = some demoSymptomResult ∧
    (process_patient demoAgents "W5" none [] 0).outcome
      = .ok (process_patient demoAgents "W5" none [] 0).finalCase ∧
    (process_patient demoAgents "W5" none [] 0).finalCase.current_stage
      = "completed" := by
  have h := C5_no_audio_skips_voice demoAgents "W5" [] 0
  have h6 := h.2.2.2.2.2 demoSymptomResult [] demoTriageDecision demoCarePlan
    rfl rfl rfl rfl
  exact ⟨h.2.1, h.2.2.2.2.1 demoSymptomResult rfl, h6.1, h6.2⟩

/-! ## Claim C3: the delivered progress sequence -/

/-- Counterexample to C3 as stated: in a successful run with an audio
reference, every checkpoint percentage is delivered twice (once ending
a stage, once starting the next), so the delivered sequence is
[0,20,20,40,40,60,60,80,80,100] — not [0,20,40,60,80,100] and not
strictly increasing. -/
theorem C3_counterexample :
    (process_patient demoAgents "W3B" (some "audio.wav") [] 0).notifications.map
        (fun n => n.2.2) ≠ [0, 20, 40, 60, 80, 100] ∧
    ¬ List.Chain' (· < ·)
      ((process_patient demoAgents "W3B" (some "audio.wav") [] 0).notifications.map
        (fun n => n.2.2)) := by
  have hval : (process_patient demoAgents "W3B" (some "audio.wav") [] 0).notifications.map
      (fun n => n.2.2) = [0, 20, 20, 40, 40, 60, 60, 80, 80, 100] := by rfl
  rw [hval]
  refine ⟨by decide, ?_⟩
  simp [List.chain'_cons]

/-- Claim C3 (amended): for every successful run the delivered
percentage sequence is non-decreasing and equals exactly
[0,20,20,40,40,60,60,80,80,100] when audio was supplied, and
[20,40,40,60,60,80,80,100] when it was not (the voice segment is
collapsed); each checkpoint value is delivered twice — at the end of
one stage and the start of the next — so the distinct values in order
are [0,20,40,60,80,100] (resp. [20,40,60,80,100]), but the sequence is
not strictly increasing and differs from [0,20,40,60,80,100]. -/
theorem C3_progress_checkpoints (ag : Agents) (case_id : String)
    (audio_file : Option String) (docs : List String) (now : Nat)
    (rc : PatientCase)
    (h : (process_patient ag case_id audio_file docs now).outcome = .ok rc) :
    (audio_file = none →
      (process_patient ag case_id audio_file docs now).notifications.map
        (fun n => n.2.2) = [20, 40, 40, 60, 60, 80, 80, 100]) ∧
    (∀ af, audio_file = some af →
      (process_patient ag case_id audio_file docs now).notifications.map
        (fun n => n.2.2) = [0, 20, 20, 40, 40, 60, 60, 80, 80, 100]) ∧
    List.Chain' (· ≤ ·)
      ((process_patient ag case_id audio_file docs now).notifications.map
        (fun n => n.2.2)) := by
  cases audio_file with
  | none =>
    rcases hs : ag.symptom "Sample patient transcript" .empty with e | sr
    · have hps : pipelineStages ag none docs (initState case_id none docs now)
          = (update_progress (initState case_id none docs now)
              "symptom_reasoning" 20, some e) := by
        unfold pipelineStages
        rw [seqStage_of_ok (voiceStage_none ag (initState case_id none docs now)),
          seqStage_of_err (symptomStage_err_novoice ag
            (initState case_id none docs now) e rfl hs)]
      rw [process_patient_eq, hps, finishRun_some_outcome] at h
      exact absurd h (by simp)
    · rcases hd : documentStageResult ag docs with e | rs
      · have hps : pipelineStages ag none docs (initState case_id none docs now)
            = (update_progress
                (afterSymptom (initState case_id none docs now) sr)
                "document_processing" 40, some e) := by
          unfold pipelineStages
          rw [seqStage_of_ok (voiceStage_none ag (initState case_id none docs now)),
            seqStage_of_ok (symptomStage_ok_novoice ag
              (initState case_id none docs now) sr rfl hs),
            seqStage_of_err (documentStage_res_err ag docs
              (afterSymptom (initState case_id none docs now) sr) e hd)]
        rw [process_patient_eq, hps, finishRun_some_outcome] at h
        exact absurd h (by simp)
      · rcases ht : ag.triage (buildVoiceAnalysis none)
            (buildSymptomAnalysis (some sr)) (buildDocumentData (some rs))
            with e | td
        · have hps : pipelineStages ag none docs (initState case_id none docs now)
              = (update_progress
                  (afterDocs (afterSymptom (initState case_id none docs now) sr) rs)
                  "triage_coordination" 60, some e) := by
            unfold pipelineStages
            rw [seqStage_of_ok (voiceStage_none ag (initState case_id none docs now)),
              seqStage_of_ok (symptomStage_ok_novoice ag
                (initState case_id none docs now) sr rfl hs),
              seqStage_of_ok (documentStage_res_ok ag docs
                (afterSymptom (initState case_id none docs now) sr) rs hd),
              seqStage_of_err (triageStage_err ag
                (afterDocs (afterSymptom (initState case_id none docs now) sr) rs)
                e (by exact ht))]
          rw [process_patient_eq, hps, finishRun_some_outcome] at h
          exact absurd h (by simp)
        · rcases hcp : ag.carePlan (buildCarePlanInput
              (afterTriage (afterDocs
                (afterSymptom (initState case_id none docs now) sr) rs)
                td).patientCase) with e | cp
          · have hps : pipelineStages ag none docs (initState case_id none docs now)
                = (update_progress
                    (afterTriage (afterDocs
                      (afterSymptom (initState case_id none docs now) sr) rs) td)
                    "care_plan_generation" 80, some e) := by
              unfold pipelineStages
              rw [seqStage_of_ok (voiceStage_none ag (initState case_id none docs now)),
                seqStage_of_ok (symptomStage_ok_novoice ag
                  (initState case_id none docs now) sr rfl hs),
                seqStage_of_ok (documentStage_res_ok ag docs
                  (afterSymptom (initState case_id none docs now) sr) rs hd),
                seqStage_of_ok (triageStage_ok ag
                  (afterDocs (afterSymptom (initState case_id none docs now) sr) rs)
                  td (by exact ht))]
              exact carePlanStage_err ag
                (afterTriage (afterDocs
                  (afterSymptom (initState case_id none docs now) sr) rs) td) e hcp
            rw [process_patient_eq, hps, finishRun_some_outcome] at h
            exact absurd h (by simp)
          · have hps : pipelineStages ag none docs (initState case_id none docs now)
                = (afterCare (afterTriage (afterDocs
                    (afterSymptom (initState case_id none docs now) sr) rs) td) cp,
                   none) := by
              unfold pipelineStages
              rw [seqStage_of_ok (voiceStage_none ag (initState case_id none docs now)),
                seqStage_of_ok (symptomStage_ok_novoice ag
                  (initState case_id none docs now) sr rfl hs),
                seqStage_of_ok (documentStage_res_ok ag docs
                  (afterSymptom (initState case_id none docs now) sr) rs hd),
                seqStage_of_ok (triageStage_ok ag
                  (afterDocs (afterSymptom (initState case_id none docs now) sr) rs)
                  td (by exact ht))]
              exact carePlanStage_ok ag
                (afterTriage (afterDocs
                  (afterSymptom (initState case_id none docs now) sr) rs) td) cp hcp
            rw [process_patient_eq, hps, finishRun_none_notifications]
            refine ⟨?_, ?_, ?_⟩
            · intro hx
              simp [afterCare, afterTriage, afterDocs, afterSymptom,
                initState, initialCase]
            · intro af haf
              exact absurd haf (by simp)
            · simp [afterCare, afterTriage, afterDocs, afterSymptom,
                initState, initialCase, List.chain'_cons]
  | some af =>
    rcases hv : ag.voice af with e | vr
    · have hps : pipelineStages ag (some af) docs
          (initState case_id (some af) docs now)
          = (update_progress (initState case_id (some af) docs now)
              "voice_intake" 0, some e) := by
        unfold pipelineStages
        rw [seqStage_of_err (voiceStage_err ag af
          (initState case_id (some af) docs now) e hv)]
      rw [process_patient_eq, hps, finishRun_some_outcome] at h
      exact absurd h (by simp)
    · rcases hs : ag.symptom vr.transcript
          (.ofVoice vr.urgency_level vr.speaker_emotions vr.duration_seconds)
          with e | sr
      · have hps : pipelineStages ag (some af) docs
            (initState case_id (some af) docs now)
            = (update_progress
                (afterVoice (initState case_id (some af) docs now) vr)
                "symptom_reasoning" 20, some e) := by
          unfold pipelineStages
          rw [seqStage_of_ok (voiceStage_ok ag af
              (initState case_id (some af) docs now) vr hv),
            seqStage_of_err (symptomStage_err_voice ag
              (afterVoice (initState case_id (some af) docs now) vr) vr e rfl hs)]
        rw [process_patient_eq, hps, finishRun_some_outcome] at h
        exact absurd h (by simp)
      · rcases hd : documentStageResult ag docs with e | rs
        · have hps : pipelineStages ag (some af) docs
              (initState case_id (some af) docs now)
              = (update_progress
                  (afterSymptom
                    (afterVoice (initState case_id (some af) docs now) vr) sr)
                  "document_processing" 40, some e) := by
            unfold pipelineStages
            rw [seqStage_of_ok (voiceStage_ok ag af
                (initState case_id (some af) docs now) vr hv),
              seqStage_of_ok (symptomStage_ok_voice ag
                (afterVoice (initState case_id (some af) docs now) vr) vr sr rfl hs),
              seqStage_of_err (documentStage_res_err ag docs
                (afterSymptom
                  (afterVoice (initState case_id (some af) docs now) vr) sr) e hd)]
          rw [process_patient_eq, hps, finishRun_some_outcome] at h
          exact absurd h (by simp)
        · rcases ht : ag.triage (buildVoiceAnalysis (some vr))
              (buildSymptomAnalysis (some sr)) (buildDocumentData (some rs))
              with e | td
          · have hps : pipelineStages ag (some af) docs
                (initState case_id (some af) docs now)
                = (update_progress
                    (afterDocs (afterSymptom
                      (afterVoice (initState case_id (some af) docs now) vr) sr) rs)
                    "triage_coordination" 60, some e) := by
              unfold pipelineStages
              rw [seqStage_of_ok (voiceStage_ok ag af
                  (initState case_id (some af) docs now) vr hv),
                seqStage_of_ok (symptomStage_ok_voice ag
                  (afterVoice (initState case_id (some af) docs now) vr) vr sr rfl hs),
                seqStage_of_ok (documentStage_res_ok ag docs
                  (afterSymptom
                    (afterVoice (initState case_id (some af) docs now) vr) sr) rs hd),
                seqStage_of_err (triageStage_err ag
                  (afterDocs (afterSymptom
                    (afterVoice (initState case_id (some af) docs now) vr) sr) rs)
                  e (by exact ht))]
            rw [process_patient_eq, hps, finishRun_some_outcome] at h
            exact absurd h (by simp)
          · rcases hcp : ag.carePlan (buildCarePlanInput
                (afterTriage (afterDocs (afterSymptom
                  (afterVoice (initState case_id (some af) docs now) vr) sr) rs)
                  td).patientCase) with e | cp
            · have hps : pipelineStages ag (some af) docs
                  (initState case_id (some af) docs now)
                  = (update_progress
                      (afterTriage (afterDocs (afterSymptom
                        (afterVoice (initState case_id (some af) docs now) vr) sr) rs)
                        td)
                      "care_plan_generation" 80, some e) := by
                unfold pipelineStages
                rw [seqStage_of_ok (voiceStage_ok ag af
                    (initState case_id (some af) docs now) vr hv),
                  seqStage_of_ok (symptomStage_ok_voice ag
                    (afterVoice (initState case_id (some af) docs now) vr) vr sr rfl hs),
                  seqStage_of_ok (documentStage_res_ok ag docs
                    (afterSymptom
                      (afterVoice (initState case_id (some af) docs now) vr) sr) rs hd),
                  seqStage_of_ok (triageStage_ok ag
                    (afterDocs (afterSymptom
                      (afterVoice (initState case_id (some af) docs now) vr) sr) rs)
                    td (by exact ht))]
                exact carePlanStage_err ag
                  (afterTriage (afterDocs (afterSymptom
                    (afterVoice (initState case_id (some af) docs now) vr) sr) rs) td)
                  e hcp
              rw [process_patient_eq, hps, finishRun_some_outcome] at h
              exact absurd h (by simp)
            · have hps : pipelineStages ag (some af) docs
                  (initState case_id (some af) docs now)
                  = (afterCare (afterTriage (afterDocs (afterSymptom
                      (afterVoice (initState case_id (some af) docs now) vr) sr) rs)
                      td) cp, none) := by
                unfold pipelineStages
                rw [seqStage_of_ok (voiceStage_ok ag af
                    (initState case_id (some af) docs now) vr hv),
                  seqStage_of_ok (symptomStage_ok_voice ag
                    (afterVoice (initState case_id (some af) docs now) vr) vr sr rfl hs),
                  seqStage_of_ok (documentStage_res_ok ag docs
                    (afterSymptom
                      (afterVoice (initState case_id (some af) docs now) vr) sr) rs hd),
                  seqStage_of_ok (triageStage_ok ag
                    (afterDocs (afterSymptom
                      (afterVoice (initState case_id (some af) docs now) vr) sr) rs)
                    td (by exact ht))]
                exact carePlanStage_ok ag
                  (afterTriage (afterDocs (afterSymptom
                    (afterVoice (initState case_id (some af) docs now) vr) sr) rs) td)
                  cp hcp
              rw [process_patient_eq, hps, finishRun_none_notifications]
              refine ⟨?_, ?_, ?_⟩
              · intro hnone
                exact absurd hnone (by simp)
              · intro af2 haf2
                simp [afterCare, afterTriage, afterDocs, afterSymptom, afterVoice,
                  initState, initialCase]
              · simp [afterCare, afterTriage, afterDocs, afterSymptom, afterVoice,
                  initState, initialCase, List.chain'_cons]

/-- Witness for the amended C3: the successful demo run with audio
delivers exactly [0,20,20,40,40,60,60,80,80,100]. -/
theorem C3_witness :
    (process_patient demoAgents "W3" (some "a.wav") [] 0).notifications.map
        (fun n => n.2.2) = [0, 20, 20, 40, 40, 60, 60, 80, 80, 100] ∧
    List.Chain' (· ≤ ·)
      ((process_patient demoAgents "W3" (some "a.wav") [] 0).notifications.map
        (fun n => n.2.2)) := by
  have h := C3_progress_checkpoints demoAgents "W3" (some "a.wav") [] 0
    (process_patient demoAgents "W3" (some "a.wav") [] 0).finalCase (by rfl)
  exact ⟨h.2.1 "a.wav" rfl, h.2.2⟩

/-! ## Claim C2: the fan-out's results are in input order -/

theorem run_document_processing_ok_map
    (f : String → Except String DocumentProcessingResult)
    (docs : List String) (rs : List DocumentProcessingResult)
    (h : run_document_processing f docs = .ok rs) :
    docs.map f = rs.map Except.ok := by
  induction docs generalizing rs with
  | nil =>
    simp only [run_document_processing] at h
    obtain rfl : ([] : List DocumentProcessingResult) = rs := by simpa using h
    simp
  | cons d ds ih =>
    cases hfd : f d with
    | error e => simp [run_document_processing, hfd] at h
    | ok r =>
      cases hrest : run_document_processing f ds with
      | error e => simp [run_document_processing, hfd, hrest] at h
      | ok rs2 =>
        simp only [run_document_processing, hfd, hrest] at h
        obtain rfl : r :: rs2 = rs := by simpa using h
        simp [hfd, ih rs2 hrest]

theorem find?_runDocSchedule
    (f : String → Except String DocumentProcessingResult)
    (docs : List String) (sched : List Nat) (i : Nat)
    (hperm : sched.Perm (List.range docs.length)) (hi : i < docs.length) :
    (runDocSchedule f docs sched).find? (fun p => p.1 == i)
      = some (i, f (docs.get ⟨i, hi⟩)) := by
  have hmem : i ∈ sched := hperm.mem_iff.mpr (List.mem_range.mpr hi)
  have hpair : (i, f (docs.get ⟨i, hi⟩)) ∈ runDocSchedule f docs sched := by
    unfold runDocSchedule
    rw [List.mem_filterMap]
    refine ⟨i, hmem, ?_⟩
    rw [List.getElem?_eq_getElem hi]
    simp
  have hsome : ((runDocSchedule f docs sched).find? (fun p => p.1 == i)).isSome := by
    rw [List.find?_isSome]
    exact ⟨_, hpair, by simp⟩
  obtain ⟨q, hq⟩ := Option.isSome_iff_exists.mp hsome
  have hqi : q.1 = i := by simpa using List.find?_some hq
  have hqmem := List.mem_of_find?_eq_some hq
  unfold runDocSchedule at hqmem
  rw [List.mem_filterMap] at hqmem
  obtain ⟨j, hjmem, hjq⟩ := hqmem
  cases hdj : docs[j]? with
  | none =>
    rw [hdj] at hjq
    simp at hjq
  | some d =>
    rw [hdj] at hjq
    simp only [Option.map] at hjq
    have hjq2 : (j, f d) = q := by simpa using hjq
    have hji : j = i := by
      rw [← hjq2] at hqi
      simpa using hqi
    subst hji
    rw [List.getElem?_eq_getElem hi] at hdj
    have hd : d = docs.get ⟨j, hi⟩ := by simpa using hdj.symm
    rw [hq, ← hjq2, hd]

theorem assembleAux_eq
    (completed : List (Nat × Except String DocumentProcessingResult))
    (L : List (Except String DocumentProcessingResult))
    (hfind : ∀ i (hi : i < L.length),
      completed.find? (fun p => p.1 == i) = some (i, L.get ⟨i, hi⟩)) :
    ∀ n s, s + n ≤ L.length →
      assembleAux completed s n = some ((L.drop s).take n) := by
  intro n
  induction n with
  | zero =>
    intro s hs
    rfl
  | succ n ih =>
    intro s hs
    have hslt : s < L.length := by omega
    unfold assembleAux
    rw [hfind s hslt, ih (s + 1) (by omega)]
    rw [List.drop_eq_getElem_cons hslt, List.take_succ_cons]
    simp

/-- Claim C2: when the DocumentProcessing fan-out succeeds on K
document references, the result list has length exactly K and its i-th
element is the outcome of processing the i-th reference; reassembling
the concurrently completed per-document tasks in *any* completion order
(any permutation of the task indices) yields exactly that in-order
list; with an empty reference list no task is launched and the result
list is empty; and the orchestrator stores exactly this list in the
case's document-result slot. -/
theorem C2_fanout_order (f : String → Except String DocumentProcessingResult)
    (docs : List String) (sched : List Nat)
    (rs : List DocumentProcessingResult)
    (hperm : sched.Perm (List.range docs.length))
    (h : run_document_processing f docs = .ok rs) :
    rs.length = docs.length ∧
    (∀ i (hi : i < docs.length) (hi2 : i < rs.length),
      f (docs.get ⟨i, hi⟩) = .ok (rs.get ⟨i, hi2⟩)) ∧
    assembleInOrder docs.length (runDocSchedule f docs sched)
      = some (rs.map Except.ok) ∧
    (∀ sched2, runDocSchedule f ([] : List String) sched2 = []) ∧
    run_document_processing f ([] : List String) = .ok [] ∧
    (docs = [] → rs = []) ∧
    (∀ (ag : Agents) (st : RunState), ag.document = f →
      documentStage ag docs st = (afterDocs st rs, none) ∧
      (afterDocs st rs).patientCase.document_results = some rs) := by
  have hmap := run_document_processing_ok_map f docs rs h
  have hlen : rs.length = docs.length := by
    have := congrArg List.length hmap
    simpa using this.symm
  refine ⟨hlen, ?_, ?_, ?_, rfl, ?_, ?_⟩
  · intro i hi hi2
    have h1 : (docs.map f)[i]? = (rs.map Except.ok)[i]? := by rw [hmap]
    rw [List.getElem?_map, List.getElem?_map, List.getElem?_eq_getElem hi,
      List.getElem?_eq_getElem hi2] at h1
    simpa using h1
  · have hfind : ∀ i (hi : i < (docs.map f).length),
        (runDocSchedule f docs sched).find? (fun p => p.1 == i)
          = some (i, (docs.map f).get ⟨i, hi⟩) := by
      intro i hi
      have hi2 : i < docs.length := by simpa using hi
      rw [find?_runDocSchedule f docs sched i hperm hi2]
      simp [List.getElem_map]
    have hasm := assembleAux_eq (runDocSchedule f docs sched) (docs.map f)
      hfind (docs.map f).length 0 (by omega)
    unfold assembleInOrder
    have hlq : docs.length = (docs.map f).length := by simp
    rw [hlq, hasm]
    simp [hmap]
  · intro sched2
    unfold runDocSchedule
    simp
  · intro hnil
    subst hnil
    simpa using hlen
  · intro ag st hag
    have hres : documentStageResult ag docs = .ok rs := by
      cases docs with
      | nil =>
        obtain rfl : rs = [] := by simpa using hlen
        rfl
      | cons d ds =>
        rw [documentStageResult_cons, hag]
        exact h
    exact ⟨documentStage_res_ok ag docs st rs hres, rfl⟩

/-- Witness for C2: two references processed with completion order
[1, 0] still assemble in submission order. -/
theorem C2_witness :
    ([1, 0] : List Nat).Perm (List.range (["A", "B"] : List String).length) ∧
    ([demoDocResult, demoDocResult] : List DocumentProcessingResult).length
      = (["A", "B"] : List String).length ∧
    assembleInOrder (["A", "B"] : List String).length
        (runDocSchedule demoAgents.document ["A", "B"] [1, 0])
      = some ([demoDocResult, demoDocResult].map Except.ok) := by
  have h := C2_fanout_order demoAgents.document ["A", "B"] [1, 0]
    [demoDocResult, demoDocResult] (by decide) (by rfl)
  exact ⟨by decide, h.1, h.2.2.1⟩

/-- Witness for C6: the completed demo run has 14 trace entries, entry
13 is the terminal "completed" record, and the claim theorem applies at
that index. -/
theorem C6_witness :
    (process_patient demoAgents "W6" none [] 0).trace[13]? =
      some (process_patient demoAgents "W6" none [] 0).finalCase ∧
    (process_patient demoAgents "W6" none [] 0).finalCase.current_stage
      = "completed" ∧
    (process_patient demoAgents "W6" none [] 0).finalCase =
      (process_patient demoAgents "W6" none [] 0).finalCase := by
  have hc : (process_patient demoAgents "W6" none [] 0).trace[13]? =
      some (process_patient demoAgents "W6" none [] 0).finalCase := by rfl
  refine ⟨hc, by rfl, ?_⟩
  exact C6_terminal_stage_frozen demoAgents "W6" none [] 0 13 13 le_rfl _ _
    hc hc (Or.inr (by rfl))

end MediScan
